import Mathlib

/-!
Verification development for the message-garden-api repository.

The repository is a family of serverless HTTP handlers (flower / fish / bird
themes) that normalize a user message, enforce count-based rate limits,
compose an image prompt via a chat model, request an image, upload it to
object storage and insert a metadata record.  Strings are modelled at the
JavaScript level as lists of UTF-16 code units; the seed derivation
(`hashToSeed`) is modelled with a full executable SHA-256 over the UTF-8
encoding of the message, exactly as `crypto.createHash("sha256")` computes it.
Every external call (chat completion, moderation, image generation, storage
upload, database insert, CMS push) is recorded in an effect trace, and its
outcome is drawn from an explicit environment, so each handler is a pure
function of request and environment.
-/

set_option maxRecDepth 100000

/-- JavaScript strings, as lists of UTF-16 code units. -/
abbrev JsStr := List Nat

/-- Encode a Lean string as a JS string (UTF-16 code units, with surrogate
pairs for code points beyond the BMP). -/
def strLit (s : String) : JsStr :=
  s.data.foldr (fun c acc =>
    let n := c.toNat
    if n < 65536 then n :: acc
    else (55296 + (n - 65536) / 1024) :: (56320 + (n - 65536) % 1024) :: acc) []

/-- The ECMAScript whitespace set used by `String.prototype.trim` and by the
regex class `\s`: WhiteSpace plus LineTerminator code points. -/
def isJsWS (u : Nat) : Bool :=
  u == 9 || u == 10 || u == 11 || u == 12 || u == 13 || u == 32 ||
  u == 160 || u == 5760 ||
  (8192 ≤ u && u ≤ 8202) ||
  u == 8232 || u == 8233 || u == 8239 || u == 8287 || u == 12288 || u == 65279

/-- JS `String.prototype.trim`: drop leading and trailing whitespace. -/
def jsTrim (s : JsStr) : JsStr :=
  ((s.dropWhile isJsWS).reverse.dropWhile isJsWS).reverse

/-- The input normalizer shared by every handler:
`(message || "").toString().trim().slice(0, cap)`. -/
def jsClean (cap : Nat) (message : Option JsStr) : JsStr :=
  (jsTrim (message.getD [])).take cap

/-- ASCII lowercasing of code units, matching the canonicalisation that a
non-unicode case-insensitive JS regex performs on ASCII patterns. -/
def lowerAscii (s : JsStr) : JsStr :=
  s.map (fun u => if 65 ≤ u && u ≤ 90 then u + 32 else u)

/-- Does `pat` occur at the head of `hay`? -/
def startsWithSeq : JsStr → JsStr → Bool
  | _, [] => true
  | [], _ :: _ => false
  | h :: hs, p :: ps => h == p && startsWithSeq hs ps

/-- Does `pat` occur anywhere inside `hay`? -/
def containsSeq : JsStr → JsStr → Bool
  | [], pat => pat.isEmpty
  | h :: hs, pat => startsWithSeq (h :: hs) pat || containsSeq hs pat

/-- Case-insensitive substring test (`/pat/i.test(hay)` for an ASCII,
already-lowercase pattern). -/
def containsCI (hay pat : JsStr) : Bool :=
  containsSeq (lowerAscii hay) pat

/-- Fuelled collapse of whitespace runs: JS `.replace(/\s+/g, " ")`. -/
def collapseWSF : Nat → JsStr → JsStr
  | 0, s => s
  | _ + 1, [] => []
  | f + 1, u :: rest =>
    if isJsWS u then 32 :: collapseWSF f (rest.dropWhile isJsWS)
    else u :: collapseWSF f rest

/-- JS `.replace(/\s+/g, " ")`. -/
def collapseWS (s : JsStr) : JsStr := collapseWSF s.length s

/-- Decimal rendering of a number, as UTF-16 code units. -/
def natToStr (n : Nat) : JsStr := (Nat.repr n).data.map Char.toNat

/-! ### UTF-16 to UTF-8, as Node's `Buffer.from(str, "utf8")` performs it -/

/-- Decode UTF-16 code units into Unicode code points; lone surrogates
become U+FFFD, as in Node's UTF-8 conversion. -/
def utf16Decode : List Nat → List Nat
  | [] => []
  | [u] =>
    if 55296 ≤ u && u ≤ 57343 then [65533] else [u]
  | u :: v :: rest =>
    if 55296 ≤ u && u ≤ 56319 then
      if 56320 ≤ v && v ≤ 57343 then
        (65536 + (u - 55296) * 1024 + (v - 56320)) :: utf16Decode rest
      else 65533 :: utf16Decode (v :: rest)
    else if 56320 ≤ u && u ≤ 57343 then 65533 :: utf16Decode (v :: rest)
    else u :: utf16Decode (v :: rest)

/-- UTF-8 encoding of a single code point. -/
def utf8EncodeCp (c : Nat) : List Nat :=
  if c < 128 then [c]
  else if c < 2048 then [192 + c / 64, 128 + c % 64]
  else if c < 65536 then [224 + c / 4096, 128 + (c / 64) % 64, 128 + c % 64]
  else [240 + c / 262144, 128 + (c / 4096) % 64, 128 + (c / 64) % 64, 128 + c % 64]

/-- The UTF-8 bytes of a JS string. -/
def utf16ToUtf8 (s : JsStr) : List Nat :=
  (utf16Decode s).foldr (fun c acc => utf8EncodeCp c ++ acc) []

/-! ### SHA-256 over byte lists -/

/-- Truncate to a 32-bit word. -/
def w32 (n : Nat) : Nat := n % 4294967296

/-- 32-bit exclusive or. -/
def xor32 (a b : Nat) : Nat := w32 (a ^^^ b)

/-- 32-bit and. -/
def and32 (a b : Nat) : Nat := w32 (a &&& b)

/-- 32-bit complement. -/
def not32 (a : Nat) : Nat := 4294967295 - w32 a

/-- Right rotation of a 32-bit word. -/
def rotr (n x : Nat) : Nat :=
  w32 x / 2 ^ n + (w32 x % 2 ^ n) * 2 ^ (32 - n)

/-- Right shift of a 32-bit word. -/
def shr (n x : Nat) : Nat := w32 x / 2 ^ n

/-- SHA-256 round constants (FIPS 180-4, in decimal). -/
def sha256K : List Nat :=
  [1116352408, 1899447441, 3049323471, 3921009573, 961987163, 1508970993,
   2453635748, 2870763221, 3624381080, 310598401, 607225278, 1426881987,
   1925078388, 2162078206, 2614888103, 3248222580, 3835390401, 4022224774,
   264347078, 604807628, 770255983, 1249150122, 1555081692, 1996064986,
   2554220882, 2821834349, 2952996808, 3210313671, 3336571891, 3584528711,
   113926993, 338241895, 666307205, 773529912, 1294757372, 1396182291,
   1695183700, 1986661051, 2177026350, 2456956037, 2730485921, 2820302411,
   3259730800, 3345764771, 3516065817, 3600352804, 4094571909, 275423344,
   430227734, 506948616, 659060556, 883997877, 958139571, 1322822218,
   1537002063, 1747873779, 1955562222, 2024104815, 2227730452, 2361852424,
   2428436474, 2756734187, 3204031479, 3329325298]

/-- SHA-256 initial hash state (in decimal). -/
def sha256H0 : List Nat :=
  [1779033703, 3144134277, 1013904242, 2773480762,
   1359893119, 2600822924, 528734635, 1541459225]

/-- 8-byte big-endian encoding. -/
def be8 (n : Nat) : List Nat :=
  [n / 2 ^ 56 % 256, n / 2 ^ 48 % 256, n / 2 ^ 40 % 256, n / 2 ^ 32 % 256,
   n / 2 ^ 24 % 256, n / 2 ^ 16 % 256, n / 2 ^ 8 % 256, n % 256]

/-- 4-byte big-endian encoding of a 32-bit word. -/
def be4 (n : Nat) : List Nat :=
  [n / 2 ^ 24 % 256, n / 2 ^ 16 % 256, n / 2 ^ 8 % 256, n % 256]

/-- SHA-256 padding: append 0x80, zeros, and the 64-bit bit length. -/
def shaPad (m : List Nat) : List Nat :=
  m ++ 128 :: List.replicate ((119 - m.length % 64) % 64) 0 ++ be8 (8 * m.length)

/-- Group bytes into big-endian 32-bit words. -/
def bytesToWords : List Nat → List Nat
  | b0 :: b1 :: b2 :: b3 :: rest =>
    (b0 * 16777216 + b1 * 65536 + b2 * 256 + b3) :: bytesToWords rest
  | _ => []

/-- Message-schedule small sigma functions. -/
def ssig0 (x : Nat) : Nat := xor32 (rotr 7 x) (xor32 (rotr 18 x) (shr 3 x))

/-- Second small sigma. -/
def ssig1 (x : Nat) : Nat := xor32 (rotr 17 x) (xor32 (rotr 19 x) (shr 10 x))

/-- Extend the 16-word schedule by `n` further words. -/
def extendSched : Nat → List Nat → List Nat
  | 0, ws => ws
  | n + 1, ws =>
    let i := ws.length
    extendSched n
      (ws ++ [w32 (ssig1 (ws.getD (i - 2) 0) + ws.getD (i - 7) 0 +
                   ssig0 (ws.getD (i - 15) 0) + ws.getD (i - 16) 0)])

/-- One SHA-256 compression round. -/
def roundStep (st : List Nat) (kw : Nat × Nat) : List Nat :=
  match st with
  | [a, b, c, d, e, f, g, h] =>
    let s1 := xor32 (rotr 6 e) (xor32 (rotr 11 e) (rotr 25 e))
    let ch := xor32 (and32 e f) (and32 (not32 e) g)
    let t1 := w32 (h + s1 + ch + kw.1 + kw.2)
    let s0 := xor32 (rotr 2 a) (xor32 (rotr 13 a) (rotr 22 a))
    let mj := xor32 (and32 a b) (xor32 (and32 a c) (and32 b c))
    [w32 (t1 + w32 (s0 + mj)), a, b, c, w32 (d + t1), e, f, g]
  | st => st

/-- Compress one 64-byte block into the running state. -/
def compressBlock (H : List Nat) (block : List Nat) : List Nat :=
  let ws := extendSched 48 (bytesToWords block)
  let st := (sha256K.zip ws).foldl roundStep H
  (H.zip st).map (fun p => w32 (p.1 + p.2))

/-- Fuelled split into 64-byte chunks. -/
def chunksF : Nat → List Nat → List (List Nat)
  | 0, _ => []
  | _ + 1, [] => []
  | f + 1, l => l.take 64 :: chunksF f (l.drop 64)

/-- SHA-256 digest (32 bytes) of a byte list. -/
def sha256 (m : List Nat) : List Nat :=
  let p := shaPad m
  let H := (chunksF p.length p).foldl compressBlock sha256H0
  H.foldr (fun wrd acc => be4 wrd ++ acc) []

/-- `hashToSeed` from every handler: the first 4 bytes of the SHA-256 digest
of the (UTF-8 encoded) string, read as a big-endian unsigned 32-bit integer
(`digest.readUInt32BE(0)`). -/
def hashToSeed (s : JsStr) : Nat :=
  match sha256 (utf16ToUtf8 s) with
  | b0 :: b1 :: b2 :: b3 :: _ => b0 * 16777216 + b1 * 65536 + b2 * 256 + b3
  | _ => 0
/-- Source string constant. -/
def sysAIv1 : JsStr := strLit "Describe a single flower, poetic and vivid.  Always only a flower, no objects or people. An illustration of (Object) in the style of Japanese anime realism, inspired by Makoto Shinkai. The object must be painted with soft yet vibrant lighting, natural highlights, and atmospheric shading. The style should feel poetic and cinematic, with smooth color blending and delicate gradients, avoiding harsh outlines. Surfaces should glow subtly under natural light, creating a luminous and immersive mood. Colors must be vivid and harmonious, with rich depth and subtle pastel tones where needed, evoking the dreamy realism of anime films. The object must be completely isolated on a plain pure white background, with no extra scenery, so that the anime-inspired details are the sole focus. Square format (1:1), high resolution, polished anime realism."

/-- Source string constant. -/
def SAFE_AI2 : JsStr := strLit "An illustration of a single ethereal flower with translucent pastel petals and a soft luminous core, crafted from abstract glass and silk. In Japanese anime film realism, inspired by Makoto Shinkai. Soft yet vibrant lighting, natural highlights, and atmospheric shading. Poetic, cinematic mood with smooth blending and delicate gradients; no harsh outlines. Surfaces glow subtly under natural light, vivid harmonious colors with gentle pastel depth. Completely isolated on a pure white background, no extra scenery. Square 1:1, high resolution, polished anime realism."

/-- Source string constant. -/
def sysAI2 : JsStr := strLit "You turn any concept into a brief, poetic description of a single flower. The flower must be clearly recognizable and may be made of or inspired by any material or idea (e.g., flowers, glass, fire, fabric). Describe only the flower (no environment, no other animals). Then place that description into this template, replacing (OBJECT): An illustration of (OBJECT) in Japanese anime film realism, inspired by Makoto Shinkai. Soft yet vibrant lighting, natural highlights, and atmospheric shading. Poetic, cinematic mood with smooth color blending and delicate gradients; no harsh outlines. Surfaces glow subtly under natural light, with vivid, harmonious colors and gentle pastel depth. Completely isolated on a pure white background, no extra scenery. Square 1:1, high resolution, polished anime realism."

/-- Source string constant. -/
def SAFE_FALLBACK_DESC_000 : JsStr := strLit "a delicate pastel flower with soft glowing petals fading into light"

/-- Source string constant. -/
def styleSuffix000 : JsStr := strLit ". In Japanese anime realism, Makoto Shinkai style. \nSoft vibrant lighting, cinematic shading, smooth gradients. \nDreamy anime film realism with vivid harmonious colors and pastel tones. \nSingle isolated flower on pure white background. Square high resolution."

/-- Source string constant. -/
def sys000 : JsStr := strLit "You transform the user’s words into a poetic description of a single flower.  \nAlways describe only one flower, isolated, with no background or objects.  \nThe user’s text should inspire the flower’s colors, petal shapes, textures, or mood.  \nDo not describe the object literally (e.g. don\x27t put pizza or cats inside the flower).  \nInstead, reinterpret them into safe floral qualities.  \n\nExamples:  \nUser: \"pizza\" → \"a flower with warm golden petals dotted with red speckles, glowing playfully\"  \nUser: \"cats\" → \"a flower with soft curved petals and a gentle playful mood\""

/-- Source string constant. -/
def SAFE_001 : JsStr := strLit "A delicate pastel flower with soft glowing petals fading into light."

/-- Source string constant. -/
def sys001 : JsStr := strLit "You only create poetic descriptions of flowers. \nThe user’s words may inspire the flower’s colors, petal shapes, textures, or mood. \nAlways output just one short line describing a single flower. \nExample: \"A flower with golden layered petals glowing with warm earthy light.\""

/-- Source string constant. -/
def tmpl001suffix : JsStr := strLit " in the style of Japanese anime realism, inspired by Makoto Shinkai. \nThe object must be painted with soft yet vibrant lighting, natural highlights, and atmospheric shading. \nPoetic, cinematic mood with smooth color blending and delicate gradients; no harsh outlines. \nSurfaces glow subtly under natural light, creating a luminous and immersive mood. \nColors must be vivid and harmonious, with rich depth and subtle pastel tones where needed, evoking the dreamy realism of anime films. \nThe object must be completely isolated on a plain pure white background, with no extra scenery. \nSquare format (1:1), high resolution, polished anime realism."

/-- Source string constant. -/
def SAFE_002 : JsStr := strLit "An illustration of a single delicate flower in Japanese anime realism, inspired by Makoto Shinkai. Soft vibrant lighting, natural highlights, cinematic shading. Smooth gradients, glowing under natural light. Vivid harmonious colors. Completely isolated on a pure white background. Square format, high resolution."

/-- Source string constant. -/
def sys002 : JsStr := strLit "Describe a single flower, poetic and vivid.  Always only one flower, completely isolated, with no background, no scenery, and no other objects or people.  An illustration of (OBJECT) in the style of Japanese anime realism, inspired by Makoto Shinkai.  The flower must be painted with soft yet vibrant lighting, natural highlights, and atmospheric shading.  The style should feel poetic and cinematic, with smooth color blending and delicate gradients, avoiding harsh outlines. Petals and surfaces should glow gently under natural light, creating a luminous and immersive mood.  Colors must be vivid and harmonious, with rich depth and subtle pastel tones where needed, evoking the dreamy realism of anime films. The flower must be completely isolated on a plain pure white background, with no extra scenery or details, so that the anime-inspired details are the sole focus. polished anime realism."

/-- Source string constant. -/
def sys003 : JsStr := strLit "\n            You are an AI prompt designer.\n            Convert any user message into a description of a single imaginative flower.\n    \n            Rules:\n            - Always generate a flower — never people, animals, objects, or text.\n            - Style must always be:\n    \n            \"An illustration of a flower in the style of Japanese anime realism, inspired by Makoto Shinkai.\n            Painted with soft yet vibrant lighting, natural highlights, and atmospheric shading.\n            Poetic and cinematic feel, smooth gradients, no harsh outlines.\n            Subtle glow under natural light. Vivid, harmonious colors with pastel tones.\n            Square format (1:1), high resolution, polished anime realism.\"\n    \n            - The user message should only affect the flower’s **color, petal shape, and mood**.\n            - Keep the description short and safe, under 100 words.\n          "

/-- Source string constant. -/
def fallback004 : JsStr := strLit "\n          A luminous safe flower in Makoto Shinkai anime realism style.\n          Soft pastel colors, cinematic lighting, isolated on pure white background.\n          "

/-- Source string constant. -/
def sys005 : JsStr := strLit "You are an AI prompt designer. \nEvery output must strictly follow this art style:\n\n\"Create a pixel art isometric illustration of a flower, designed in a clean and minimal retro game style.  \nThe object should be seen from a 3/4 isometric perspective, slightly elevated view, with crisp and sharp pixel edges.  \nUse a limited 6–8 color palette dominated by light grays and white tones as the base, with deep navy blue and dark gray for shadows, and small accent colors (like orange or bright blue) for details.  \nApply simple flat shading with no gradients, only solid blocks of color to suggest light and shadow.  \nThe main light source should come from the upper left, casting shadows to the bottom right.  \nOutline all shapes with a consistent 1–2 pixel border in dark navy/black.  \nAdd a simple projected shadow on the ground below the object to anchor it in space.  \nThe background should be a plain desaturated light gray, without textures or noise, so the object is clearly visible.  \nThe overall aesthetic should resemble retro 8–16 bit video games, with geometric simplicity and readable iconic details.  \nKeep the proportions small, cute, and slightly exaggerated for charm.  \nEnsure the design style remains consistent for any object generated in this series.\""

/-- Source string constant. -/
def errGardenFullLong : JsStr := strLit "The garden is full 🌱 — please come back later."

/-- Source string constant. -/
def sys006 : JsStr := strLit "You only create descriptions of flowers.  \nEvery output must be a single flower, nothing else.  \n\nThe user’s text may inspire only the flower’s **colors, petal shapes, patterns, or mood**.  \n- If the text mentions foods, reinterpret them as safe colors or textures (e.g., pizza → golden petals with dotted red speckles).  \n- If the text mentions animals, reinterpret them as safe moods or patterns (e.g., cats → soft curved petals, playful arrangement).  \n- If the text is abstract, turn it into symbolic petal forms, glowing effects, or colors.  \n\nNever describe people, body parts, animals, unsafe objects, politics, violence, or sexual content.  \nIf the text is unsafe or irrelevant, ignore it and instead describe a gentle pastel flower.  \n\nKeep your description vivid and poetic, like:  \n\"A flower with translucent petals that dissolve into light as they open.\"  \n\nFinally, embed your description (OBJECT) into this style template, replacing (OBJECT):  \n\n\"An illustration of (OBJECT) in the style of Japanese anime realism, inspired by Makoto Shinkai.  \nThe object must be painted with soft yet vibrant lighting, natural highlights, and atmospheric shading.  \nThe style should feel poetic and cinematic, with smooth color blending and delicate gradients, avoiding harsh outlines.  \nSurfaces should glow subtly under natural light, creating a luminous and immersive mood.  \nColors must be vivid and harmonious, with rich depth and subtle pastel tones where needed, evoking the dreamy realism of anime films.  \nThe object must be completely isolated on a plain pure white background, with no extra scenery, so that the anime-inspired details are the sole focus.  \nSquare format (1:1), high resolution, polished anime realism.\"\n\n"

/-- Source string constant. -/
def SAFE_010 : JsStr := strLit "An illustration of a single simple flower with soft pastel petals and a golden center. Painted in Japanese anime film realism, inspired by Makoto Shinkai. Gentle lighting, natural highlights, and atmospheric shading. Poetic mood with smooth gradients; no harsh outlines. The flower glows subtly under natural light, vivid harmonious colors with delicate pastel tones. Completely isolated on a pure white background, no extra scenery. Square 1:1, high resolution, polished anime realism."

/-- Source string constant. -/
def sys010 : JsStr := strLit "You are an AI prompt designer that only creates descriptions of flowers.  \nAlways describe a single flower.  \nThe flower must always be safe, luminous, poetic, and cinematic.  \n\nThe user’s text may inspire the flower’s **colors, textures, shapes, or mood**, even if the text refers to objects or foods.  \nTransform those ideas into floral qualities. For example, “pizza” might inspire red and golden petals, “chocolate” might inspire deep brown tones.  \n\nNever describe people, body parts, animals, unsafe objects, politics, violence, or nudity.  \nIf the input is unsafe or irrelevant, ignore it and instead describe a gentle pastel flower.  \n\nKeep the description concise, but always embed it into this style template, replacing (OBJECT):  \n\n\"An illustration of (OBJECT) in the style of Japanese anime realism, inspired by Makoto Shinkai.  \nThe object must be painted with soft yet vibrant lighting, natural highlights, and atmospheric shading.  \nThe style should feel poetic and cinematic, with smooth color blending and delicate gradients, avoiding harsh outlines.  \nSurfaces should glow subtly under natural light, creating a luminous and immersive mood.  \nColors must be vivid and harmonious, with rich depth and subtle pastel tones where needed, evoking the dreamy realism of anime films.  \nThe object must be completely isolated on a plain pure white background, with no extra scenery, so that the anime-inspired details are the sole focus.  \nSquare format (1:1), high resolution, polished anime realism.\"\n\n"

/-- Source string constant. -/
def fishSysRaw : JsStr := strLit "\nYou rewrite any user message into a single-sentence, safe description of ONE stylized fish.\nHard rules: describe only the fish body (no people, no animals, no text, no objects, no background).\nKeep the same hero pose: fish oriented left-to-right, slight 3/4 angle, centered.\nPersonalization can affect only color palette, subtle patterns, and surface texture.\nAt the end of the sentence, append exactly this locked style tag:\n\" — anime realism, soft yet vibrant lighting, natural highlights, atmospheric shading, smooth gradients, no harsh outlines, luminous feel, harmonious vivid colors, isolated on pure white, square 1:1, high resolution, polished anime realism.\"\nIf the input is unsafe or off-topic, output:\n\"A gentle, iridescent koi with pearly fins and a luminous core\" — anime realism, soft yet vibrant lighting, natural highlights, atmospheric shading, smooth gradients, no harsh outlines, luminous feel, harmonious vivid colors, isolated on pure white, square 1:1, high resolution, polished anime realism.\n    "

/-- Source string constant. -/
def sysBird : JsStr := strLit "You are a Creative AI specializing in Metaphorical Description, tasked with transforming abstract concepts, feelings, or ideas into vivid, poetic descriptions suitable for AI Image Generation prompts. Your sole focus is to describe the concept as a Flying Bird.\n                    \n                    Core Rules:\n                    Object Focus & Size: Always describe the concept as a single, tangible Bird in Flight, fitting entirely within the frame (avoiding elements that stretch beyond the image boundaries). It should be centered and prominent. Vary the pose (e.g., soaring, fast movement blur, hovering) and describe its plume texture and inherent grace.\n                    Exclusion of Environment & Air Effects: ABSOLUTELY DO NOT describe the setting, background, water, sky, clouds, trees, OR any effects the bird has on the air around it (e.g., trails, glows, displaced air). Only the Bird itself.\n                    Style: Language must be concise but richly imaginative and poetic —focusing on highly metaphorical materials, textures, colors, and unique forms that evoke the symbolic feeling of the concept.\n                    Creative Interpretation & Integrated Embellishments: The user’s concept must entirely influence the bird\x27s appearance. You are encouraged to invent and integrate any symbolic \"accessories\" or modifications directly onto or as part of the bird\x27s form if they enhance the metaphor. This can include elements like specialized lenses as eyes, metallic wings, robotic limbs, integrated headphones, unique headgear, or textured \"armor.\" These embellishments must be visually distinct and clearly part of the bird\x27s unique design. NEVER turn into people, external objects (not integrated), or animals (other than the bird).\n                   \n                    Output Format: \n                    The response must always be one compact English sentence describing only the bird, immediately followed by the locked style anchor:\n                    anime realism with dreamy cinematic atmosphere, soft yet vibrant lighting, natural highlights, atmospheric shading, smooth color blending, delicate gradients, no harsh outlines, glowing surfaces under natural light, vivid harmonious colors, rich depth, subtle pastel tones, isolated on a pure white background, square 1:1 format, high resolution, polished anime realism."


/-- Prefix of the `dallePrompt` template literal of the sanitizing variant. -/
def dalle004pre : JsStr := strLit "\nAn imaginative flower that symbolizes: \""

/-- Suffix of the `dallePrompt` template literal of the sanitizing variant. -/
def dalle004suf : JsStr := strLit "\".\nStyle: Japanese anime realism inspired by Makoto Shinkai.\nSoft yet vibrant lighting, natural highlights, atmospheric shading.\nPoetic and cinematic, smooth color blending, delicate gradients, luminous glow.\nVivid harmonious colors, pastel tones. Isolated on pure white background.\nSquare format (1:1), high resolution, polished anime realism.\n"

/-- Prefix of the prompt template of variant `part_001`. -/
def tmpl001pre : JsStr := strLit "An illustration of "

/-- The fish system prompt, after the `.trim()` the source applies to it. -/
def fishSys : JsStr := jsTrim fishSysRaw

/-- `Message: "..." . Create its flower form.` user-role wrapper. -/
def userMsgFlower (clean : JsStr) : JsStr :=
  strLit "Message: \"" ++ clean ++ strLit "\". Create its flower form."

/-- User-role wrapper of variant `part_003`. -/
def userMsg003 (clean : JsStr) : JsStr :=
  strLit "Message: \"" ++ clean ++
  strLit "\". Make this into a flower description using the locked anime realism style."

/-- User-role wrapper of variant `part_005`. -/
def userMsg005 (clean : JsStr) : JsStr :=
  strLit "Message: \"" ++ clean ++
  strLit "\". Adjust only mood/color accents based on this message, while keeping the art style locked."

/-- "OPTIONS" method string. -/
def msgOPTIONS : JsStr := strLit "OPTIONS"

/-- "POST" method string. -/
def msgPOST : JsStr := strLit "POST"

/-- Error message constants from the handlers. -/
def errUsePost : JsStr := strLit "Use POST"

/-- "Message required". -/
def errMessageRequired : JsStr := strLit "Message required"

/-- Global-capacity rejection message. -/
def errGardenFull : JsStr := strLit "Garden is full 🌱"

/-- Per-identity rejection message. -/
def errMax3 : JsStr := strLit "🌸 Max 3 blooms per user"

/-- Bird global-capacity rejection message. -/
def errAviaryFull : JsStr := strLit "The aviary is full 🐦"

/-- Bird per-identity rejection message. -/
def errMaxBirds : JsStr := strLit "🐦 Max 3 birds per user"

/-- Uniform server error message. -/
def errServer : JsStr := strLit "Server error"

/-- Non-safety image failure message. -/
def errImageGen : JsStr := strLit "Image generation error"

/-- Safety-block rejection message. -/
def errBlocked : JsStr := strLit "Blocked by safety filter 🌸"

/-- CMS failure message of the first `part_003` variant. -/
def errWebflowFailed : JsStr := strLit "Webflow CMS insert failed"

/-- The word the sanitizing variant substitutes for blocklisted words. -/
def misticoStr : JsStr := strLit "místico"

/-- The blocklist of `sanitizeInput`, in source (alternation) order. -/
def sanitizeWords004 : List JsStr :=
  [strLit "sangre", strLit "sangriento", strLit "matar", strLit "muerte",
   strLit "arma", strLit "violencia", strLit "sexy", strLit "cuerpo",
   strLit "kill", strLit "blood", strLit "gun", strLit "sex",
   strLit "nude", strLit "death"]

/-- Length of the first blocklist alternative matching at the head of `s`
(case-insensitively), if any. -/
def sanMatchAt (s : JsStr) : Option Nat :=
  (sanitizeWords004.find? (fun wrd => lowerAscii (s.take wrd.length) == wrd)).map
    List.length

/-- Fuelled scan of `.replace(/(sangre|...|death)/gi, "místico")`. -/
def sanLoop : Nat → JsStr → JsStr
  | 0, s => s
  | _ + 1, [] => []
  | f + 1, u :: rest =>
    match sanMatchAt (u :: rest) with
    | some n => misticoStr ++ sanLoop f ((u :: rest).drop n)
    | none => u :: sanLoop f rest

/-- `sanitizeInput` of the sanitizing variant: blocklist replacement followed
by `.slice(0, 100)`. -/
def sanitizeInput (input : JsStr) : JsStr := (sanLoop input.length input).take 100

/-- Quote characters stripped from the edges of a composed description. -/
def isQuoteCh (u : Nat) : Bool := u == 34 || u == 39 || u == 8220 || u == 8221

/-- Strip a leading and a trailing run of quote characters. -/
def stripEdgeQuotes (s : JsStr) : JsStr :=
  ((s.dropWhile isQuoteCh).reverse.dropWhile isQuoteCh).reverse

/-- `sanitizeDescription` of variant `part_000`: strip wrapping quotes,
collapse whitespace, trim, cap at 240. -/
def sanitizeDescription (desc : JsStr) : JsStr :=
  (jsTrim (collapseWS (stripEdgeQuotes desc))).take 240

/-- `buildStyledPrompt` of variant `part_000`. -/
def buildStyledPrompt (description : JsStr) : JsStr :=
  sanitizeDescription (if description = [] then SAFE_FALLBACK_DESC_000 else description)
    ++ styleSuffix000

/-- Curly double quotes replaced by straight quotes (`part_002` micro-clean). -/
def quoteFix (u : Nat) : Nat := if u == 8220 || u == 8221 then 34 else u

/-- The `part_002` composed-prompt clean-up: straighten quotes, collapse
whitespace, trim, cap at 700. -/
def part002Sanitize (s : JsStr) : JsStr :=
  (jsTrim (collapseWS (s.map quoteFix))).take 700

/-! ### Data model: records, effects, responses, environment -/

/-- A row inserted into the theme table. -/
structure Record where
  message : JsStr
  image_url : JsStr
  seed : Nat
  style_version : Nat
  ip : Option JsStr
  prompt_used : Option JsStr
deriving DecidableEq, Repr

/-- One external call performed by a handler, in order. -/
inductive Eff where
  | countGlobal : Eff
  | countPerIp : JsStr → Eff
  | modCall : JsStr → Eff
  | chatCall : JsStr → JsStr → Eff
  | imageCall : JsStr → Eff
  | uploadCall : JsStr → List Nat → Eff
  | insertCall : Record → Eff
  | cmsCall : JsStr → Eff
deriving DecidableEq, Repr

/-- The JSON response of a handler (the fields the claims are about). -/
structure Response where
  status : Nat
  ok : Bool
  image_url : Option JsStr
  prompt : Option JsStr
  error : Option JsStr
deriving DecidableEq, Repr

/-- An error thrown by the image-generation client. -/
structure ImgErr where
  code : Option JsStr
  status : Option Nat
  msg : JsStr

/-- A successful image-generation result. -/
structure ImgOk where
  bytes : List Nat
  revised : Option JsStr

/-- The outcomes of all external calls a single request can make. -/
structure Env where
  globalCount : Nat
  userCount : Nat
  now : Nat
  urlBase : JsStr
  chat : Except Unit JsStr
  modUser : Except Unit Bool
  modPrompt : Except Unit Bool
  img1 : Except ImgErr ImgOk
  img2 : Except ImgErr ImgOk
  countErr : Bool
  uploadErr : Bool
  insertErr : Bool
  cms : Except Unit Bool

/-- An incoming HTTP request. -/
structure Req where
  method : JsStr
  message : Option JsStr
  ip : JsStr

/-- `isFlaggedByModeration`: the moderation verdict, with service failure
treated as not-flagged (fail-open). -/
def flagOf : Except Unit Bool → Bool
  | Except.ok b => b
  | Except.error _ => false

/-- The error code string the image client uses for moderation blocks. -/
def mbCode : JsStr := strLit "moderation_blocked"

/-- The safety classification of the `submitAI` safety variant and
`part_006`: code `moderation_blocked`, or a 400 whose message matches
`/safety system|moderation/i`. -/
def looksLikeModerationBlock (e : ImgErr) : Bool :=
  e.code == some mbCode ||
  (e.status == some 400 &&
    (containsCI e.msg (strLit "safety system") || containsCI e.msg (strLit "moderation")))

/-- The safety classification of `part_002`: code `moderation_blocked`, or a
400 whose message matches `/safety|moderation/i`. -/
def looksSafety002 (e : ImgErr) : Bool :=
  e.code == some mbCode ||
  (e.status == some 400 &&
    (containsCI e.msg (strLit "safety") || containsCI e.msg (strLit "moderation")))

/-- `part_004` classification: only the `moderation_blocked` code. -/
def isModBlocked004 (e : ImgErr) : Bool := e.code == some mbCode

/-- Generated storage filename of the flower handlers. -/
def bloomFilename (now seed : Nat) : JsStr :=
  strLit "bloomAI_" ++ natToStr now ++ strLit "_" ++ natToStr seed ++ strLit ".png"

/-- Generated storage filename of the fish handler (foldered). -/
def fishFilename (now seed : Nat) : JsStr :=
  strLit "fish/fish_" ++ natToStr now ++ strLit "_" ++ natToStr seed ++ strLit ".png"

/-- Generated storage filename of the bird handler. -/
def birdFilename (now seed : Nat) : JsStr :=
  strLit "birdAI_" ++ natToStr now ++ strLit "_" ++ natToStr seed ++ strLit ".png"

/-- Error response (`res.status(s).json(...)` with an `error` field). -/
def respErr (status : Nat) (e : JsStr) : Response :=
  ⟨status, false, none, none, some e⟩

/-- Success response `{ ok: true, image_url, prompt }`. -/
def respOk200 (url p : JsStr) : Response :=
  ⟨200, true, some url, some p, none⟩

/-- The CORS preflight response. -/
def respOptions : Response := ⟨200, false, none, none, none⟩

/-- The prompts of all image-generation calls in a trace, in order. -/
def imagePromptsOf (tr : List Eff) : List JsStr :=
  tr.filterMap (fun e => match e with | Eff.imageCall p => some p | _ => none)

/-- All storage uploads in a trace. -/
def uploadsOf (tr : List Eff) : List (JsStr × List Nat) :=
  tr.filterMap (fun e => match e with | Eff.uploadCall f b => some (f, b) | _ => none)

/-- All database inserts in a trace. -/
def insertsOf (tr : List Eff) : List Record :=
  tr.filterMap (fun e => match e with | Eff.insertCall r => some r | _ => none)

/-- All chat-completion calls in a trace. -/
def chatCallsOf (tr : List Eff) : List (JsStr × JsStr) :=
  tr.filterMap (fun e => match e with | Eff.chatCall s u => some (s, u) | _ => none)

/-- All moderation calls in a trace. -/
def modCallsOf (tr : List Eff) : List JsStr :=
  tr.filterMap (fun e => match e with | Eff.modCall t => some t | _ => none)

/-- The environment outcome of the `n`-th image-generation call. -/
def imgOutcome (env : Env) (n : Nat) : Except ImgErr ImgOk :=
  if n = 0 then env.img1 else env.img2

/-! ### Handler embeddings -/

/-- The plain `submitAI` handler (first variant in `api/submitAI.js`):
normalize, two rate limits, chat rewrite, image, upload, insert. -/
def submitAIv1 (env : Env) (req : Req) : Response × List Eff :=
  if req.method = msgOPTIONS then (respOptions, [])
  else if req.method ≠ msgPOST then (respErr 405 errUsePost, [])
  else
    let clean := jsClean 500 req.message
    if clean = [] then (respErr 400 errMessageRequired, [])
    else if 200 ≤ env.globalCount then (respErr 403 errGardenFull, [Eff.countGlobal])
    else if 500 ≤ env.userCount then
      (respErr 403 errMax3, [Eff.countGlobal, Eff.countPerIp req.ip])
    else
      let seed := hashToSeed clean
      let tr0 := [Eff.countGlobal, Eff.countPerIp req.ip]
      match env.chat with
      | Except.error _ =>
        (respErr 500 errServer, tr0 ++ [Eff.chatCall sysAIv1 (userMsgFlower clean)])
      | Except.ok content =>
        let flowerPrompt := jsTrim content
        let tr1 := tr0 ++ [Eff.chatCall sysAIv1 (userMsgFlower clean)]
        match env.img1 with
        | Except.error _ => (respErr 500 errServer, tr1 ++ [Eff.imageCall flowerPrompt])
        | Except.ok o =>
          let filename := bloomFilename env.now seed
          let url := env.urlBase ++ filename
          (respOk200 url flowerPrompt,
           tr1 ++ [Eff.imageCall flowerPrompt, Eff.uploadCall filename o.bytes,
                   Eff.insertCall ⟨clean, url, seed, 2, some req.ip, none⟩])

/-- Upload + insert + 200 tail shared by the moderation-gated flower
variants (`submitAI` safety variant and `part_006`). -/
def moderatedFinish (env : Env) (req : Req) (clean fpUsed : JsStr)
    (bytes : List Nat) (tr : List Eff) : Response × List Eff :=
  let filename := bloomFilename env.now (hashToSeed clean)
  let url := env.urlBase ++ filename
  (respOk200 url fpUsed,
   tr ++ [Eff.uploadCall filename bytes,
          Eff.insertCall ⟨clean, url, hashToSeed clean, 2, some req.ip, none⟩])

/-- Image-acquisition stage of the moderation-gated flower variants: final
prompt moderation, primary image call, classified fallback retry. -/
def moderatedImage (env : Env) (req : Req) (clean fp1 : JsStr) (tr : List Eff) :
    Response × List Eff :=
  let fp2 := if flagOf env.modPrompt then SAFE_AI2 else fp1
  let tr2 := tr ++ [Eff.modCall fp1]
  match env.img1 with
  | Except.ok o => moderatedFinish env req clean fp2 o.bytes (tr2 ++ [Eff.imageCall fp2])
  | Except.error e =>
    if looksLikeModerationBlock e then
      match env.img2 with
      | Except.ok o2 =>
        moderatedFinish env req clean SAFE_AI2 o2.bytes
          (tr2 ++ [Eff.imageCall fp2, Eff.imageCall SAFE_AI2])
      | Except.error _ =>
        (respErr 400 errBlocked, tr2 ++ [Eff.imageCall fp2, Eff.imageCall SAFE_AI2])
    else (respErr 500 errImageGen, tr2 ++ [Eff.imageCall fp2])

/-- The moderation-gated flower pipeline, parametrized by the system prompt
(the only difference between the `submitAI` safety variant and `part_006`). -/
def moderatedCore (sys : JsStr) (env : Env) (req : Req) : Response × List Eff :=
  if req.method = msgOPTIONS then (respOptions, [])
  else if req.method ≠ msgPOST then (respErr 405 errUsePost, [])
  else
    let clean := jsClean 500 req.message
    if clean = [] then (respErr 400 errMessageRequired, [])
    else if 200 ≤ env.globalCount then (respErr 403 errGardenFull, [Eff.countGlobal])
    else if 500 ≤ env.userCount then
      (respErr 403 errMax3, [Eff.countGlobal, Eff.countPerIp req.ip])
    else
      let tr0 := [Eff.countGlobal, Eff.countPerIp req.ip, Eff.modCall clean]
      if flagOf env.modUser then moderatedImage env req clean SAFE_AI2 tr0
      else
        match env.chat with
        | Except.error _ =>
          (respErr 500 errServer, tr0 ++ [Eff.chatCall sys (userMsgFlower clean)])
        | Except.ok content =>
          let fp0 := jsTrim content
          moderatedImage env req clean (if fp0 = [] then SAFE_AI2 else fp0)
            (tr0 ++ [Eff.chatCall sys (userMsgFlower clean)])

/-- The `submitAI` safety variant (second handler in `api/submitAI.js`). -/
def submitAI2run (env : Env) (req : Req) : Response × List Eff :=
  moderatedCore sysAI2 env req

/-- Variant `part_006` (same pipeline, its own system prompt). -/
def part006run (env : Env) (req : Req) : Response × List Eff :=
  moderatedCore sys006 env req

/-- Variant `part_000`: chat rewrite guarded by try/catch with a fallback
description, then an unconditional safe retry of image generation. -/
def part000run (env : Env) (req : Req) : Response × List Eff :=
  if req.method = msgOPTIONS then (respOptions, [])
  else if req.method ≠ msgPOST then (respErr 405 errUsePost, [])
  else
    let clean := jsClean 500 req.message
    if clean = [] then (respErr 400 errMessageRequired, [])
    else if 200 ≤ env.globalCount then (respErr 403 errGardenFull, [Eff.countGlobal])
    else if 500 ≤ env.userCount then
      (respErr 403 errMax3, [Eff.countGlobal, Eff.countPerIp req.ip])
    else
      let seed := hashToSeed clean
      let flowerLine :=
        match env.chat with
        | Except.error _ => SAFE_FALLBACK_DESC_000
        | Except.ok content => jsTrim content
      let finalPrompt := buildStyledPrompt flowerLine
      let tr1 := [Eff.countGlobal, Eff.countPerIp req.ip,
                  Eff.chatCall sys000 clean]
      let finish := fun (bytes : List Nat) (tr : List Eff) =>
        let filename := bloomFilename env.now seed
        let url := env.urlBase ++ filename
        (respOk200 url finalPrompt,
         tr ++ [Eff.uploadCall filename bytes,
                Eff.insertCall ⟨clean, url, seed, 7, some req.ip, none⟩])
      match env.img1 with
      | Except.ok o => finish o.bytes (tr1 ++ [Eff.imageCall finalPrompt])
      | Except.error _ =>
        match env.img2 with
        | Except.ok o2 =>
          finish o2.bytes
            (tr1 ++ [Eff.imageCall finalPrompt,
                     Eff.imageCall (buildStyledPrompt SAFE_FALLBACK_DESC_000)])
        | Except.error _ =>
          (respErr 500 errServer,
           tr1 ++ [Eff.imageCall finalPrompt,
                   Eff.imageCall (buildStyledPrompt SAFE_FALLBACK_DESC_000)])

/-- Variant `part_001`: cap 200, chat fallback, single final-prompt
moderation, no image retry (non-2xx image failure is a 500). -/
def part001run (env : Env) (req : Req) : Response × List Eff :=
  if req.method = msgOPTIONS then (respOptions, [])
  else if req.method ≠ msgPOST then (respErr 405 errUsePost, [])
  else
    let clean := jsClean 200 req.message
    if clean = [] then (respErr 400 errMessageRequired, [])
    else if 200 ≤ env.globalCount then (respErr 403 errGardenFull, [Eff.countGlobal])
    else if 500 ≤ env.userCount then
      (respErr 403 errMax3, [Eff.countGlobal, Eff.countPerIp req.ip])
    else
      let seed := hashToSeed clean
      let fp0 :=
        match env.chat with
        | Except.error _ => SAFE_001
        | Except.ok content => jsTrim content
      let fp1 := if flagOf env.modPrompt || fp0 = [] then SAFE_001 else fp0
      let actualPromptUsed := tmpl001pre ++ fp1 ++ tmpl001suffix
      let tr1 := [Eff.countGlobal, Eff.countPerIp req.ip,
                  Eff.chatCall sys001 clean, Eff.modCall fp0]
      match env.img1 with
      | Except.error _ =>
        (respErr 500 errImageGen, tr1 ++ [Eff.imageCall actualPromptUsed])
      | Except.ok o =>
        let filename := bloomFilename env.now seed
        let url := env.urlBase ++ filename
        (respOk200 url actualPromptUsed,
         tr1 ++ [Eff.imageCall actualPromptUsed, Eff.uploadCall filename o.bytes,
                 Eff.insertCall ⟨clean, url, seed, 3, some req.ip, none⟩])

/-- Variant `part_002`: no moderation, classified safe retry; the success
response reports the composed prompt even when the retry generated the
image. -/
def part002run (env : Env) (req : Req) : Response × List Eff :=
  if req.method = msgOPTIONS then (respOptions, [])
  else if req.method ≠ msgPOST then (respErr 405 errUsePost, [])
  else
    let clean := jsClean 500 req.message
    if clean = [] then (respErr 400 errMessageRequired, [])
    else if 200 ≤ env.globalCount then (respErr 403 errGardenFull, [Eff.countGlobal])
    else if 500 ≤ env.userCount then
      (respErr 403 errMax3, [Eff.countGlobal, Eff.countPerIp req.ip])
    else
      let seed := hashToSeed clean
      match env.chat with
      | Except.error _ =>
        (respErr 500 errServer,
         [Eff.countGlobal, Eff.countPerIp req.ip,
          Eff.chatCall sys002 (userMsgFlower clean)])
      | Except.ok content =>
        let flowerPrompt := part002Sanitize content
        let tr1 := [Eff.countGlobal, Eff.countPerIp req.ip,
                    Eff.chatCall sys002 (userMsgFlower clean)]
        let finish := fun (bytes : List Nat) (tr : List Eff) =>
          let filename := bloomFilename env.now seed
          let url := env.urlBase ++ filename
          (respOk200 url flowerPrompt,
           tr ++ [Eff.uploadCall filename bytes,
                  Eff.insertCall ⟨clean, url, seed, 2, some req.ip, none⟩])
        match env.img1 with
        | Except.ok o => finish o.bytes (tr1 ++ [Eff.imageCall flowerPrompt])
        | Except.error e =>
          if looksSafety002 e then
            match env.img2 with
            | Except.ok o2 =>
              finish o2.bytes
                (tr1 ++ [Eff.imageCall flowerPrompt, Eff.imageCall SAFE_002])
            | Except.error _ =>
              (respErr 400 errBlocked,
               tr1 ++ [Eff.imageCall flowerPrompt, Eff.imageCall SAFE_002])
          else
            (respErr 500 errImageGen, tr1 ++ [Eff.imageCall flowerPrompt])

/-- The first `part_003` variant: per-identity ceiling 100, no image retry,
Webflow CMS push whose failure surfaces as a 500 even though the Record was
already inserted. -/
def part003v1run (env : Env) (req : Req) : Response × List Eff :=
  if req.method = msgOPTIONS then (respOptions, [])
  else if req.method ≠ msgPOST then (respErr 405 errUsePost, [])
  else
    let clean := jsClean 500 req.message
    if clean = [] then (respErr 400 errMessageRequired, [])
    else if 200 ≤ env.globalCount then (respErr 403 errGardenFull, [Eff.countGlobal])
    else if 100 ≤ env.userCount then
      (respErr 403 errMax3, [Eff.countGlobal, Eff.countPerIp req.ip])
    else
      let seed := hashToSeed clean
      match env.chat with
      | Except.error _ =>
        (respErr 500 errServer,
         [Eff.countGlobal, Eff.countPerIp req.ip, Eff.chatCall sys003 (userMsg003 clean)])
      | Except.ok content =>
        let flowerPrompt := jsTrim content
        let tr1 := [Eff.countGlobal, Eff.countPerIp req.ip,
                    Eff.chatCall sys003 (userMsg003 clean)]
        match env.img1 with
        | Except.error _ => (respErr 500 errServer, tr1 ++ [Eff.imageCall flowerPrompt])
        | Except.ok o =>
          let filename := bloomFilename env.now seed
          let url := env.urlBase ++ filename
          let tr2 := tr1 ++ [Eff.imageCall flowerPrompt,
                             Eff.uploadCall filename o.bytes,
                             Eff.insertCall ⟨clean, url, seed, 2, some req.ip, none⟩,
                             Eff.cmsCall clean]
          match env.cms with
          | Except.error _ => (respErr 500 errServer, tr2)
          | Except.ok true => (respOk200 url flowerPrompt, tr2)
          | Except.ok false => (respErr 500 errWebflowFailed, tr2)

/-- Variant `part_004`: blocklist sanitization before hashing and insertion,
fixed prompt template, retry only on the `moderation_blocked` code, CMS
non-ok response only logged. -/
def part004run (env : Env) (req : Req) : Response × List Eff :=
  if req.method = msgOPTIONS then (respOptions, [])
  else if req.method ≠ msgPOST then (respErr 405 errUsePost, [])
  else
    let clean := jsClean 500 req.message
    if clean = [] then (respErr 400 errMessageRequired, [])
    else
      let safeMessage := sanitizeInput clean
      if 200 ≤ env.globalCount then (respErr 403 errGardenFull, [Eff.countGlobal])
      else if 50 ≤ env.userCount then
        (respErr 403 errMax3, [Eff.countGlobal, Eff.countPerIp req.ip])
      else
        let seed := hashToSeed safeMessage
        let dallePrompt := dalle004pre ++ safeMessage ++ dalle004suf
        let tr1 := [Eff.countGlobal, Eff.countPerIp req.ip]
        let finish := fun (bytes : List Nat) (tr : List Eff) =>
          let filename := bloomFilename env.now seed
          let url := env.urlBase ++ filename
          let tr2 := tr ++ [Eff.uploadCall filename bytes,
                            Eff.insertCall ⟨safeMessage, url, seed, 3, some req.ip, none⟩,
                            Eff.cmsCall safeMessage]
          match env.cms with
          | Except.error _ => (respErr 500 errServer, tr2)
          | Except.ok _ => (respOk200 url dallePrompt, tr2)
        match env.img1 with
        | Except.ok o => finish o.bytes (tr1 ++ [Eff.imageCall dallePrompt])
        | Except.error e =>
          if isModBlocked004 e then
            match env.img2 with
            | Except.ok o2 =>
              finish o2.bytes
                (tr1 ++ [Eff.imageCall dallePrompt, Eff.imageCall fallback004])
            | Except.error _ =>
              (respErr 500 errServer,
               tr1 ++ [Eff.imageCall dallePrompt, Eff.imageCall fallback004])
          else (respErr 500 errServer, tr1 ++ [Eff.imageCall dallePrompt])

/-- Variant `part_005`: global cap only, checked storage/database errors,
CMS push fully guarded by try/catch (failure never changes the response). -/
def part005run (env : Env) (req : Req) : Response × List Eff :=
  if req.method = msgOPTIONS then (respOptions, [])
  else if req.method ≠ msgPOST then (respErr 405 errUsePost, [])
  else
    let clean := jsClean 500 req.message
    if clean = [] then (respErr 400 errMessageRequired, [])
    else if env.countErr then (respErr 500 errServer, [Eff.countGlobal])
    else if 200 ≤ env.globalCount then
      (respErr 403 errGardenFullLong, [Eff.countGlobal])
    else
      let seed := hashToSeed clean
      match env.chat with
      | Except.error _ =>
        (respErr 500 errServer, [Eff.countGlobal, Eff.chatCall sys005 (userMsg005 clean)])
      | Except.ok content =>
        let flowerPrompt := jsTrim content
        let tr1 := [Eff.countGlobal, Eff.chatCall sys005 (userMsg005 clean)]
        match env.img1 with
        | Except.error _ => (respErr 500 errServer, tr1 ++ [Eff.imageCall flowerPrompt])
        | Except.ok o =>
          let filename := bloomFilename env.now seed
          let url := env.urlBase ++ filename
          let tr2 := tr1 ++ [Eff.imageCall flowerPrompt, Eff.uploadCall filename o.bytes]
          if env.uploadErr then (respErr 500 errServer, tr2)
          else
            let tr3 := tr2 ++ [Eff.insertCall ⟨clean, url, seed, 2, none, none⟩]
            if env.insertErr then (respErr 500 errServer, tr3)
            else (respOk200 url flowerPrompt, tr3 ++ [Eff.cmsCall clean])

/-- Variant `part_010`: moderation-gated, but the image catch block retries
with the safe prompt on every failure; a failing retry propagates to the
outer catch (500). -/
def part010run (env : Env) (req : Req) : Response × List Eff :=
  if req.method = msgOPTIONS then (respOptions, [])
  else if req.method ≠ msgPOST then (respErr 405 errUsePost, [])
  else
    let clean := jsClean 500 req.message
    if clean = [] then (respErr 400 errMessageRequired, [])
    else if 200 ≤ env.globalCount then (respErr 403 errGardenFull, [Eff.countGlobal])
    else if 500 ≤ env.userCount then
      (respErr 403 errMax3, [Eff.countGlobal, Eff.countPerIp req.ip])
    else
      let seed := hashToSeed clean
      let tr0 := [Eff.countGlobal, Eff.countPerIp req.ip, Eff.modCall clean]
      let cont := fun (fp1 : JsStr) (tr : List Eff) =>
        let fp2 := if flagOf env.modPrompt then SAFE_010 else fp1
        let tr2 := tr ++ [Eff.modCall fp1]
        let finish := fun (fpUsed : JsStr) (bytes : List Nat) (tr3 : List Eff) =>
          let filename := bloomFilename env.now seed
          let url := env.urlBase ++ filename
          (respOk200 url fpUsed,
           tr3 ++ [Eff.uploadCall filename bytes,
                   Eff.insertCall ⟨clean, url, seed, 2, some req.ip, none⟩])
        match env.img1 with
        | Except.ok o => finish fp2 o.bytes (tr2 ++ [Eff.imageCall fp2])
        | Except.error _ =>
          match env.img2 with
          | Except.ok o2 =>
            finish SAFE_010 o2.bytes (tr2 ++ [Eff.imageCall fp2, Eff.imageCall SAFE_010])
          | Except.error _ =>
            (respErr 500 errServer, tr2 ++ [Eff.imageCall fp2, Eff.imageCall SAFE_010])
      if flagOf env.modUser then cont SAFE_010 tr0
      else
        match env.chat with
        | Except.error _ =>
          (respErr 500 errServer, tr0 ++ [Eff.chatCall sys010 (userMsgFlower clean)])
        | Except.ok content =>
          let fp0 := jsTrim content
          cont (if fp0 = [] then SAFE_010 else fp0)
            (tr0 ++ [Eff.chatCall sys010 (userMsgFlower clean)])

/-- The `submitFish` handler: no rate limits, no composition fallback, no
image retry; stores the revised prompt in `prompt_used`. -/
def fishRun (env : Env) (req : Req) : Response × List Eff :=
  if req.method = msgOPTIONS then (respOptions, [])
  else if req.method ≠ msgPOST then (respErr 405 errUsePost, [])
  else
    let clean := jsClean 500 req.message
    if clean = [] then (respErr 400 errMessageRequired, [])
    else
      let seed := hashToSeed clean
      match env.chat with
      | Except.error _ => (respErr 500 errServer, [Eff.chatCall fishSys clean])
      | Except.ok content =>
        let fishPrompt := jsTrim content
        match env.img1 with
        | Except.error _ =>
          (respErr 500 errServer, [Eff.chatCall fishSys clean, Eff.imageCall fishPrompt])
        | Except.ok o =>
          let revisedPrompt := o.revised.getD fishPrompt
          let filename := fishFilename env.now seed
          let url := env.urlBase ++ filename
          (respOk200 url fishPrompt,
           [Eff.chatCall fishSys clean, Eff.imageCall fishPrompt,
            Eff.uploadCall filename o.bytes,
            Eff.insertCall ⟨clean, url, seed, 1, some req.ip, some revisedPrompt⟩])

/-- The `submitBird` handler: rate limits, no composition fallback, no image
retry; the duplicated `style_version` key resolves to 4. -/
def birdRun (env : Env) (req : Req) : Response × List Eff :=
  if req.method = msgOPTIONS then (respOptions, [])
  else if req.method ≠ msgPOST then (respErr 405 errUsePost, [])
  else
    let clean := jsClean 500 req.message
    if clean = [] then (respErr 400 errMessageRequired, [])
    else if 200 ≤ env.globalCount then (respErr 403 errAviaryFull, [Eff.countGlobal])
    else if 500 ≤ env.userCount then
      (respErr 403 errMaxBirds, [Eff.countGlobal, Eff.countPerIp req.ip])
    else
      let seed := hashToSeed clean
      let tr0 := [Eff.countGlobal, Eff.countPerIp req.ip]
      match env.chat with
      | Except.error _ => (respErr 500 errServer, tr0 ++ [Eff.chatCall sysBird clean])
      | Except.ok content =>
        let birdPrompt := jsTrim content
        let tr1 := tr0 ++ [Eff.chatCall sysBird clean]
        match env.img1 with
        | Except.error _ => (respErr 500 errServer, tr1 ++ [Eff.imageCall birdPrompt])
        | Except.ok o =>
          let revisedPrompt := o.revised.getD birdPrompt
          let filename := birdFilename env.now seed
          let url := env.urlBase ++ filename
          (respOk200 url birdPrompt,
           tr1 ++ [Eff.imageCall birdPrompt, Eff.uploadCall filename o.bytes,
                   Eff.insertCall ⟨clean, url, seed, 4, some req.ip, some revisedPrompt⟩])

/-! ### Concrete environments and requests for witnesses and counterexamples -/

/-- A public-URL base used in concrete runs. -/
def urlBaseW : JsStr := strLit "https://demo.supabase.co/storage/v1/object/public/flowers/"

/-- A successful image result. -/
def imgOkW : Except ImgErr ImgOk := Except.ok ⟨[137, 80, 78, 71], none⟩

/-- A second successful image result (distinct bytes). -/
def imgOk2W : Except ImgErr ImgOk := Except.ok ⟨[11, 22, 33], none⟩

/-- A safety-classified image error (`moderation_blocked`). -/
def imgErrSafety : Except ImgErr ImgOk :=
  Except.error ⟨some mbCode, some 400, strLit "Rejected by the safety system"⟩

/-- A non-safety image error (rate limit). -/
def imgErrQuota : Except ImgErr ImgOk :=
  Except.error ⟨none, some 429, strLit "Rate limit exceeded"⟩

/-- A chat completion that returns a short description. -/
def chatOkW : Except Unit JsStr := Except.ok (strLit "a red flower")

/-- A concrete POST request with message "a". -/
def reqW : Req := ⟨msgPOST, some (strLit "a"), strLit "203.0.113.7"⟩

/-- Environment: everything succeeds. -/
def envOkW : Env :=
  ⟨0, 0, 1730000000000, urlBaseW, chatOkW, Except.ok false, Except.ok false,
   imgOkW, imgOk2W, false, false, false, Except.ok true⟩

/-- Environment: user input flagged by moderation. -/
def envFlaggedW : Env :=
  ⟨0, 0, 1730000000000, urlBaseW, chatOkW, Except.ok true, Except.ok false,
   imgOkW, imgOk2W, false, false, false, Except.ok true⟩

/-- Environment: safety-blocked primary image call, failing retry. -/
def envBlockedW : Env :=
  ⟨0, 0, 1730000000000, urlBaseW, chatOkW, Except.ok false, Except.ok false,
   imgErrSafety, imgErrQuota, false, false, false, Except.ok true⟩

/-- Environment: safety-blocked primary image call, succeeding retry. -/
def envRetryOkW : Env :=
  ⟨0, 0, 1730000000000, urlBaseW, chatOkW, Except.ok false, Except.ok false,
   imgErrSafety, imgOk2W, false, false, false, Except.ok true⟩

/-- Environment: non-safety image failure, succeeding retry slot. -/
def envQuotaW : Env :=
  ⟨0, 0, 1730000000000, urlBaseW, chatOkW, Except.ok false, Except.ok false,
   imgErrQuota, imgOk2W, false, false, false, Except.ok true⟩

/-- Environment: prompt-composition (chat) call fails. -/
def envChatFailW : Env :=
  ⟨0, 0, 1730000000000, urlBaseW, Except.error (), Except.ok false, Except.ok false,
   imgOkW, imgOk2W, false, false, false, Except.ok true⟩

/-- Environment: CMS push returns a non-ok HTTP response. -/
def envCmsFailW : Env :=
  ⟨0, 0, 1730000000000, urlBaseW, chatOkW, Except.ok false, Except.ok false,
   imgOkW, imgOk2W, false, false, false, Except.ok false⟩

/-- Environment: global record count at the ceiling. -/
def envFullW : Env :=
  ⟨200, 0, 1730000000000, urlBaseW, chatOkW, Except.ok false, Except.ok false,
   imgOkW, imgOk2W, false, false, false, Except.ok true⟩

/-- Environment: per-identity record count at 500. -/
def envUserFullW : Env :=
  ⟨10, 500, 1730000000000, urlBaseW, chatOkW, Except.ok false, Except.ok false,
   imgOkW, imgOk2W, false, false, false, Except.ok true⟩

/-- Environment: per-identity record count at 100. -/
def envUserFull100W : Env :=
  ⟨10, 100, 1730000000000, urlBaseW, chatOkW, Except.ok false, Except.ok false,
   imgOkW, imgOk2W, false, false, false, Except.ok true⟩

/-- Full-success report for the moderation-gated flower pipeline: 200 with
`ok`, the public URL of the uploaded object, exactly one matching Record,
and a response prompt equal to the prompt of the image call that produced
the uploaded bytes. -/
def successOf (env : Env) (req : Req) (clean : JsStr) (out : Response × List Eff) : Prop :=
  ∃ p bytes,
    out.1 = respOk200 (env.urlBase ++ bloomFilename env.now (hashToSeed clean)) p ∧
    uploadsOf out.2 = [(bloomFilename env.now (hashToSeed clean), bytes)] ∧
    insertsOf out.2 =
      [⟨clean, env.urlBase ++ bloomFilename env.now (hashToSeed clean),
        hashToSeed clean, 2, some req.ip, none⟩] ∧
    (imagePromptsOf out.2).getLast? = some p ∧
    ∃ rv, imgOutcome env ((imagePromptsOf out.2).length - 1) = Except.ok ⟨bytes, rv⟩

/-- What a 200 response of `part_002` actually guarantees: the uploaded and
inserted data match, but the reported prompt is always the composed prompt,
even when the retry's safe prompt produced the image. -/
def part002Success (env : Env) (req : Req) (clean composed : JsStr)
    (out : Response × List Eff) : Prop :=
  ∃ bytes,
    out.1 = respOk200 (env.urlBase ++ bloomFilename env.now (hashToSeed clean)) composed ∧
    uploadsOf out.2 = [(bloomFilename env.now (hashToSeed clean), bytes)] ∧
    insertsOf out.2 =
      [⟨clean, env.urlBase ++ bloomFilename env.now (hashToSeed clean),
        hashToSeed clean, 2, some req.ip, none⟩] ∧
    ((imagePromptsOf out.2 = [composed] ∧ ∃ rv, env.img1 = Except.ok ⟨bytes, rv⟩) ∨
     (imagePromptsOf out.2 = [composed, SAFE_002] ∧ ∃ rv, env.img2 = Except.ok ⟨bytes, rv⟩))

/-- The description line `part_000` computes from the chat outcome. -/
def part000FlowerLine (env : Env) : JsStr :=
  match env.chat with
  | Except.error _ => SAFE_FALLBACK_DESC_000
  | Except.ok content => jsTrim content

/-- What a 200 response of `part_000` actually guarantees: the reported
prompt is always the styled composed prompt, even when the unconditional
retry generated the image from the fallback description. -/
def part000Success (env : Env) (req : Req) (clean : JsStr)
    (out : Response × List Eff) : Prop :=
  ∃ bytes,
    out.1 = respOk200 (env.urlBase ++ bloomFilename env.now (hashToSeed clean))
      (buildStyledPrompt (part000FlowerLine env)) ∧
    uploadsOf out.2 = [(bloomFilename env.now (hashToSeed clean), bytes)] ∧
    insertsOf out.2 =
      [⟨clean, env.urlBase ++ bloomFilename env.now (hashToSeed clean),
        hashToSeed clean, 7, some req.ip, none⟩] ∧
    ((imagePromptsOf out.2 = [buildStyledPrompt (part000FlowerLine env)] ∧
        ∃ rv, env.img1 = Except.ok ⟨bytes, rv⟩) ∨
     (imagePromptsOf out.2 =
        [buildStyledPrompt (part000FlowerLine env),
         buildStyledPrompt SAFE_FALLBACK_DESC_000] ∧
        ∃ rv, env.img2 = Except.ok ⟨bytes, rv⟩))

/-- The record the plain `submitAI` handler inserts in environment `envOkW`
for request `reqW`. -/
def recW : Record :=
  ⟨jsClean 500 reqW.message,
   urlBaseW ++ bloomFilename 1730000000000 (hashToSeed (jsClean 500 reqW.message)),
   hashToSeed (jsClean 500 reqW.message), 2, some reqW.ip, none⟩

/-! ### Theorems -/

set_option maxHeartbeats 1000000

/-- "POST" and "OPTIONS" differ. -/
theorem post_ne_options : msgPOST ≠ msgOPTIONS := by decide

/-- Every byte of a big-endian word serialisation is below 256. -/
theorem foldrBe4_lt (H : List Nat) (b : Nat)
    (h : b ∈ H.foldr (fun wrd acc => be4 wrd ++ acc) []) : b < 256 := by
  induction H with
  | nil => simp at h
  | cons w ws ih =>
    simp only [List.foldr, List.mem_append] at h
    rcases h with h | h
    · simp only [be4, List.mem_cons, List.not_mem_nil, or_false] at h
      rcases h with h | h | h | h <;> omega
    · exact ih h

/-- Every byte of a SHA-256 digest is below 256. -/
theorem sha256_bytes_lt (m : List Nat) (b : Nat) (h : b ∈ sha256 m) : b < 256 := by
  simp only [sha256] at h
  exact foldrBe4_lt _ _ h

/-- The derived seed fits in 32 bits. -/
theorem hashToSeed_lt (s : JsStr) : hashToSeed s < 4294967296 := by
  unfold hashToSeed
  split
  case h_1 b0 b1 b2 b3 rest heq =>
    have h0 : b0 < 256 := sha256_bytes_lt _ _ (by rw [heq]; simp)
    have h1 : b1 < 256 := sha256_bytes_lt _ _ (by rw [heq]; simp)
    have h2 : b2 < 256 := sha256_bytes_lt _ _ (by rw [heq]; simp)
    have h3 : b3 < 256 := sha256_bytes_lt _ _ (by rw [heq]; simp)
    omega
  case h_2 => omega

/-- C6: the derived seed is a deterministic pure function of the normalized
message: identical normalized text yields the identical seed; the seed is a
32-bit unsigned integer; and it is exactly the first 4 bytes of the SHA-256
digest of the message, read big-endian (`digest.readUInt32BE(0)`). -/
theorem C6_seed_pure_function :
    (∀ (cap : Nat) (m1 m2 : Option JsStr), jsClean cap m1 = jsClean cap m2 →
        hashToSeed (jsClean cap m1) = hashToSeed (jsClean cap m2)) ∧
    (∀ s : JsStr, hashToSeed s < 4294967296) ∧
    (∀ (s : JsStr) (b0 b1 b2 b3 : Nat) (rest : List Nat),
        sha256 (utf16ToUtf8 s) = b0 :: b1 :: b2 :: b3 :: rest →
        hashToSeed s = b0 * 16777216 + b1 * 65536 + b2 * 256 + b3) := by
  refine ⟨fun cap m1 m2 h => congrArg hashToSeed h, hashToSeed_lt, ?_⟩
  intro s b0 b1 b2 b3 rest heq
  unfold hashToSeed
  rw [heq]

/-- Witness for C6 at concrete inputs, including the FIPS "abc" test vector
for the embedded SHA-256. -/
theorem C6_seed_pure_function_witness :
    (jsClean 500 (some (strLit "a")) = jsClean 500 (some (strLit "a")) ∧
     hashToSeed (jsClean 500 (some (strLit "a"))) =
       hashToSeed (jsClean 500 (some (strLit "a")))) ∧
    (sha256 (utf16ToUtf8 (strLit "abc")) =
      [186, 120, 22, 191, 143, 1, 207, 234, 65, 65, 64, 222, 93, 174, 34, 35,
       176, 3, 97, 163, 150, 23, 122, 156, 180, 16, 255, 97, 242, 0, 21, 173] ∧
     hashToSeed (strLit "abc") = 186 * 16777216 + 120 * 65536 + 22 * 256 + 191) :=
  ⟨⟨rfl, C6_seed_pure_function.1 500 (some (strLit "a")) (some (strLit "a")) rfl⟩,
   by decide,
   C6_seed_pure_function.2.2 (strLit "abc") 186 120 22 191
     [143, 1, 207, 234, 65, 65, 64, 222, 93, 174, 34, 35,
      176, 3, 97, 163, 150, 23, 122, 156, 180, 16, 255, 97, 242, 0, 21, 173]
     (by decide)⟩

/-- C7: the normalizer is exactly trim-then-cap (so its output never exceeds
the theme cap), and an empty normalized message yields a 400
"Message required" with an empty effect trace — before any external call —
in the plain `submitAI` handler (cap 500) and in `part_001` (cap 200). -/
theorem C7_normalizer :
    (∀ (cap : Nat) (m : Option JsStr),
        jsClean cap m = (jsTrim (m.getD [])).take cap ∧ (jsClean cap m).length ≤ cap) ∧
    (∀ (env : Env) (req : Req), req.method = msgPOST →
        jsClean 500 req.message = [] →
        submitAIv1 env req = (respErr 400 errMessageRequired, [])) ∧
    (∀ (env : Env) (req : Req), req.method = msgPOST →
        jsClean 200 req.message = [] →
        part001run env req = (respErr 400 errMessageRequired, [])) := by
  refine ⟨fun cap m => ⟨rfl, ?_⟩, ?_, ?_⟩
  · simp only [jsClean, List.length_take]
    omega
  · intro env req hm h
    simp [submitAIv1, hm, post_ne_options, h]
  · intro env req hm h
    simp [part001run, hm, post_ne_options, h]

/-- Witness for C7 at a whitespace-only message. -/
theorem C7_normalizer_witness :
    (jsClean 500 (some (strLit "   ")) = (jsTrim (strLit "   ")).take 500 ∧
     (jsClean 500 (some (strLit "   "))).length ≤ 500) ∧
    (reqW.method = msgPOST ∧
     submitAIv1 envOkW ⟨msgPOST, some (strLit "   "), reqW.ip⟩ =
       (respErr 400 errMessageRequired, []) ∧
     part001run envOkW ⟨msgPOST, some (strLit "   "), reqW.ip⟩ =
       (respErr 400 errMessageRequired, [])) :=
  ⟨C7_normalizer.1 500 (some (strLit "   ")),
   rfl,
   C7_normalizer.2.1 envOkW ⟨msgPOST, some (strLit "   "), reqW.ip⟩ rfl (by decide),
   C7_normalizer.2.2 envOkW ⟨msgPOST, some (strLit "   "), reqW.ip⟩ rfl (by decide)⟩

/-- C5: with the global count at or above 200, or the per-identity count at
or above the per-identity ceiling (500 in `submitAI`, 100 in the first
`part_003` variant), the handler responds 403 with the themed message and
the trace holds only the count queries: no chat, moderation, image, upload,
insert or CMS call, and no state is written. -/
theorem C5_capacity (env : Env) (req : Req) (hm : req.method = msgPOST)
    (hne : jsClean 500 req.message ≠ []) :
    (200 ≤ env.globalCount →
      submitAIv1 env req = (respErr 403 errGardenFull, [Eff.countGlobal]) ∧
      part003v1run env req = (respErr 403 errGardenFull, [Eff.countGlobal])) ∧
    (env.globalCount < 200 → 500 ≤ env.userCount →
      submitAIv1 env req =
        (respErr 403 errMax3, [Eff.countGlobal, Eff.countPerIp req.ip])) ∧
    (env.globalCount < 200 → 100 ≤ env.userCount →
      part003v1run env req =
        (respErr 403 errMax3, [Eff.countGlobal, Eff.countPerIp req.ip])) := by
  refine ⟨fun hg => ⟨?_, ?_⟩, fun hg hu => ?_, fun hg hu => ?_⟩
  · simp [submitAIv1, hm, post_ne_options, hne, hg]
  · simp [part003v1run, hm, post_ne_options, hne, hg]
  · have hg' : ¬ 200 ≤ env.globalCount := by omega
    simp [submitAIv1, hm, post_ne_options, hne, hg', hu]
  · have hg' : ¬ 200 ≤ env.globalCount := by omega
    simp [part003v1run, hm, post_ne_options, hne, hg', hu]

/-- Witness for C5 with the global ceiling reached and with each
per-identity ceiling reached. -/
theorem C5_capacity_witness :
    (200 ≤ envFullW.globalCount →
      submitAIv1 envFullW reqW = (respErr 403 errGardenFull, [Eff.countGlobal]) ∧
      part003v1run envFullW reqW = (respErr 403 errGardenFull, [Eff.countGlobal])) ∧
    (envUserFullW.globalCount < 200 → 500 ≤ envUserFullW.userCount →
      submitAIv1 envUserFullW reqW =
        (respErr 403 errMax3, [Eff.countGlobal, Eff.countPerIp reqW.ip])) ∧
    (envUserFull100W.globalCount < 200 → 100 ≤ envUserFull100W.userCount →
      part003v1run envUserFull100W reqW =
        (respErr 403 errMax3, [Eff.countGlobal, Eff.countPerIp reqW.ip])) :=
  ⟨(C5_capacity envFullW reqW rfl (by decide)).1,
   (C5_capacity envUserFullW reqW rfl (by decide)).2.1,
   (C5_capacity envUserFull100W reqW rfl (by decide)).2.2⟩

/-- Inserts performed by the moderated image stage carry
`seed = hashToSeed message`, provided inserts already in the trace do. -/
theorem seedInv_moderatedImage (env : Env) (req : Req) (clean fp1 : JsStr)
    (tr : List Eff)
    (htr : ∀ s : Record, Eff.insertCall s ∈ tr → s.seed = hashToSeed s.message)
    (r : Record) (h : Eff.insertCall r ∈ (moderatedImage env req clean fp1 tr).2) :
    r.seed = hashToSeed r.message := by
  simp only [moderatedImage, moderatedFinish] at h
  repeat' split at h
  all_goals simp_all
  all_goals (rcases h with h | h; exact htr r h; simp_all)

/-- Seed invariant for the moderation-gated pipeline. -/
theorem seedInv_core (sys : JsStr) (env : Env) (req : Req) (r : Record)
    (h : Eff.insertCall r ∈ (moderatedCore sys env req).2) :
    r.seed = hashToSeed r.message := by
  simp only [moderatedCore] at h
  repeat' split at h
  all_goals first
    | exact seedInv_moderatedImage _ _ _ _ _ (by simp) r h
    | simp_all

/-- Seed invariant for the plain `submitAI` handler. -/
theorem seedInv_AIv1 (env : Env) (req : Req) (r : Record)
    (h : Eff.insertCall r ∈ (submitAIv1 env req).2) :
    r.seed = hashToSeed r.message := by
  simp only [submitAIv1] at h
  repeat' split at h
  all_goals simp_all

/-- Seed invariant for `part_000`. -/
theorem seedInv_000 (env : Env) (req : Req) (r : Record)
    (h : Eff.insertCall r ∈ (part000run env req).2) :
    r.seed = hashToSeed r.message := by
  simp only [part000run] at h
  repeat' split at h
  all_goals simp_all

/-- Seed invariant for `part_001`. -/
theorem seedInv_001 (env : Env) (req : Req) (r : Record)
    (h : Eff.insertCall r ∈ (part001run env req).2) :
    r.seed = hashToSeed r.message := by
  simp only [part001run] at h
  repeat' split at h
  all_goals simp_all

/-- Seed invariant for `part_002`. -/
theorem seedInv_002 (env : Env) (req : Req) (r : Record)
    (h : Eff.insertCall r ∈ (part002run env req).2) :
    r.seed = hashToSeed r.message := by
  simp only [part002run] at h
  repeat' split at h
  all_goals simp_all

/-- Seed invariant for the first `part_003` variant. -/
theorem seedInv_003 (env : Env) (req : Req) (r : Record)
    (h : Eff.insertCall r ∈ (part003v1run env req).2) :
    r.seed = hashToSeed r.message := by
  simp only [part003v1run] at h
  repeat' split at h
  all_goals simp_all

/-- Seed invariant for `part_004`: the sanitized message is hashed, and the
sanitized message is also what is stored. -/
theorem seedInv_004 (env : Env) (req : Req) (r : Record)
    (h : Eff.insertCall r ∈ (part004run env req).2) :
    r.seed = hashToSeed r.message := by
  simp only [part004run] at h
  repeat' split at h
  all_goals simp_all

/-- Seed invariant for `part_005`. -/
theorem seedInv_005 (env : Env) (req : Req) (r : Record)
    (h : Eff.insertCall r ∈ (part005run env req).2) :
    r.seed = hashToSeed r.message := by
  simp only [part005run] at h
  repeat' split at h
  all_goals simp_all

/-- Seed invariant for `part_010`. -/
theorem seedInv_010 (env : Env) (req : Req) (r : Record)
    (h : Eff.insertCall r ∈ (part010run env req).2) :
    r.seed = hashToSeed r.message := by
  simp only [part010run] at h
  repeat' split at h
  all_goals simp_all

/-- Seed invariant for `submitFish`. -/
theorem seedInv_fish (env : Env) (req : Req) (r : Record)
    (h : Eff.insertCall r ∈ (fishRun env req).2) :
    r.seed = hashToSeed r.message := by
  simp only [fishRun] at h
  repeat' split at h
  all_goals simp_all

/-- Seed invariant for `submitBird`. -/
theorem seedInv_bird (env : Env) (req : Req) (r : Record)
    (h : Eff.insertCall r ∈ (birdRun env req).2) :
    r.seed = hashToSeed r.message := by
  simp only [birdRun] at h
  repeat' split at h
  all_goals simp_all

/-- C9: every Record inserted by any embedded handler variant satisfies
`seed = hashToSeed(message)` for the exact message string stored in the
row — including `part_004`, which hashes and stores the sanitized string. -/
theorem C9_insert_seed_invariant :
    (∀ (env : Env) (req : Req) (r : Record),
        Eff.insertCall r ∈ (submitAIv1 env req).2 → r.seed = hashToSeed r.message) ∧
    (∀ (env : Env) (req : Req) (r : Record),
        Eff.insertCall r ∈ (submitAI2run env req).2 → r.seed = hashToSeed r.message) ∧
    (∀ (env : Env) (req : Req) (r : Record),
        Eff.insertCall r ∈ (part006run env req).2 → r.seed = hashToSeed r.message) ∧
    (∀ (env : Env) (req : Req) (r : Record),
        Eff.insertCall r ∈ (part000run env req).2 → r.seed = hashToSeed r.message) ∧
    (∀ (env : Env) (req : Req) (r : Record),
        Eff.insertCall r ∈ (part001run env req).2 → r.seed = hashToSeed r.message) ∧
    (∀ (env : Env) (req : Req) (r : Record),
        Eff.insertCall r ∈ (part002run env req).2 → r.seed = hashToSeed r.message) ∧
    (∀ (env : Env) (req : Req) (r : Record),
        Eff.insertCall r ∈ (part003v1run env req).2 → r.seed = hashToSeed r.message) ∧
    (∀ (env : Env) (req : Req) (r : Record),
        Eff.insertCall r ∈ (part004run env req).2 → r.seed = hashToSeed r.message) ∧
    (∀ (env : Env) (req : Req) (r : Record),
        Eff.insertCall r ∈ (part005run env req).2 → r.seed = hashToSeed r.message) ∧
    (∀ (env : Env) (req : Req) (r : Record),
        Eff.insertCall r ∈ (part010run env req).2 → r.seed = hashToSeed r.message) ∧
    (∀ (env : Env) (req : Req) (r : Record),
        Eff.insertCall r ∈ (fishRun env req).2 → r.seed = hashToSeed r.message) ∧
    (∀ (env : Env) (req : Req) (r : Record),
        Eff.insertCall r ∈ (birdRun env req).2 → r.seed = hashToSeed r.message) :=
  ⟨seedInv_AIv1, fun env req => seedInv_core sysAI2 env req,
   fun env req => seedInv_core sys006 env req, seedInv_000, seedInv_001,
   seedInv_002, seedInv_003, seedInv_004, seedInv_005, seedInv_010,
   seedInv_fish, seedInv_bird⟩

/-- Witness for C9: a concrete successful run inserts exactly the record
with `seed = hashToSeed(message)`. -/
theorem C9_insert_seed_invariant_witness :
    Eff.insertCall recW ∈ (submitAIv1 envOkW reqW).2 ∧
    recW.seed = hashToSeed recW.message :=
  ⟨by decide, C9_insert_seed_invariant.1 envOkW reqW recW (by decide)⟩

/-- Dispatch of the moderation-gated pipeline when the user input is
flagged: the chat model is never called and the image stage starts from the
constant safe prompt. -/
theorem core_flagged (sys : JsStr) (env : Env) (req : Req)
    (hm : req.method = msgPOST) (hne : jsClean 500 req.message ≠ [])
    (hg : env.globalCount < 200) (hu : env.userCount < 500)
    (hf : flagOf env.modUser = true) :
    moderatedCore sys env req =
      moderatedImage env req (jsClean 500 req.message) SAFE_AI2
        [Eff.countGlobal, Eff.countPerIp req.ip,
         Eff.modCall (jsClean 500 req.message)] := by
  have hg' : ¬ 200 ≤ env.globalCount := by omega
  have hu' : ¬ 500 ≤ env.userCount := by omega
  simp [moderatedCore, hm, post_ne_options, hne, hg', hu', hf]

/-- Dispatch of the moderation-gated pipeline when the user input is not
flagged and the chat call succeeds. -/
theorem core_chat (sys : JsStr) (env : Env) (req : Req) (c : JsStr)
    (hm : req.method = msgPOST) (hne : jsClean 500 req.message ≠ [])
    (hg : env.globalCount < 200) (hu : env.userCount < 500)
    (hf : flagOf env.modUser = false) (hc : env.chat = Except.ok c) :
    moderatedCore sys env req =
      moderatedImage env req (jsClean 500 req.message)
        (if jsTrim c = [] then SAFE_AI2 else jsTrim c)
        [Eff.countGlobal, Eff.countPerIp req.ip,
         Eff.modCall (jsClean 500 req.message),
         Eff.chatCall sys (userMsgFlower (jsClean 500 req.message))] := by
  have hg' : ¬ 200 ≤ env.globalCount := by omega
  have hu' : ¬ 500 ≤ env.userCount := by omega
  simp [moderatedCore, hm, post_ne_options, hne, hg', hu', hf, hc]

/-- In the moderated image stage started from the safe prompt, every image
call uses the safe prompt. -/
theorem moderatedImage_flagged_prompts (env : Env) (req : Req) (clean : JsStr)
    (tr : List Eff) (htr : imagePromptsOf tr = []) :
    imagePromptsOf (moderatedImage env req clean SAFE_AI2 tr).2 = [SAFE_AI2] ∨
    imagePromptsOf (moderatedImage env req clean SAFE_AI2 tr).2 =
      [SAFE_AI2, SAFE_AI2] := by
  simp only [moderatedImage, moderatedFinish]
  repeat' split
  all_goals simp_all [imagePromptsOf, List.filterMap_append]

/-- In `part_010`, a flagged request only ever sends the safe prompt to
image generation. -/
theorem part010_flagged_prompts (env : Env) (req : Req)
    (hm : req.method = msgPOST) (hne : jsClean 500 req.message ≠ [])
    (hg : env.globalCount < 200) (hu : env.userCount < 500)
    (hf : flagOf env.modUser = true) :
    imagePromptsOf (part010run env req).2 = [SAFE_010] ∨
    imagePromptsOf (part010run env req).2 = [SAFE_010, SAFE_010] := by
  have hg' : ¬ 200 ≤ env.globalCount := by omega
  have hu' : ¬ 500 ≤ env.userCount := by omega
  simp only [part010run]
  simp [hm, post_ne_options, hne, hg', hu', hf]
  repeat' split
  all_goals simp_all [imagePromptsOf, List.filterMap_append]

/-- C10: in the moderation-gated variants (the `submitAI` safety variant and
`part_006`, both instances of `moderatedCore`, and `part_010`), a flagged
user input makes every image-generation prompt the constant safe fallback,
independent of the message; hence any two flagged requests use the same
first image prompt. -/
theorem C10_flagged_constant_prompt :
    (∀ (sys : JsStr) (env : Env) (req : Req), req.method = msgPOST →
      jsClean 500 req.message ≠ [] → env.globalCount < 200 → env.userCount < 500 →
      flagOf env.modUser = true →
      imagePromptsOf (moderatedCore sys env req).2 = [SAFE_AI2] ∨
      imagePromptsOf (moderatedCore sys env req).2 = [SAFE_AI2, SAFE_AI2]) ∧
    (∀ (env : Env) (req : Req), req.method = msgPOST →
      jsClean 500 req.message ≠ [] → env.globalCount < 200 → env.userCount < 500 →
      flagOf env.modUser = true →
      imagePromptsOf (part010run env req).2 = [SAFE_010] ∨
      imagePromptsOf (part010run env req).2 = [SAFE_010, SAFE_010]) ∧
    (∀ (sys : JsStr) (env1 : Env) (req1 : Req) (env2 : Env) (req2 : Req),
      req1.method = msgPOST → jsClean 500 req1.message ≠ [] →
      env1.globalCount < 200 → env1.userCount < 500 → flagOf env1.modUser = true →
      req2.method = msgPOST → jsClean 500 req2.message ≠ [] →
      env2.globalCount < 200 → env2.userCount < 500 → flagOf env2.modUser = true →
      (imagePromptsOf (moderatedCore sys env1 req1).2).head? =
        (imagePromptsOf (moderatedCore sys env2 req2).2).head?) := by
  have main : ∀ (sys : JsStr) (env : Env) (req : Req), req.method = msgPOST →
      jsClean 500 req.message ≠ [] → env.globalCount < 200 → env.userCount < 500 →
      flagOf env.modUser = true →
      imagePromptsOf (moderatedCore sys env req).2 = [SAFE_AI2] ∨
      imagePromptsOf (moderatedCore sys env req).2 = [SAFE_AI2, SAFE_AI2] := by
    intro sys env req hm hne hg hu hf
    rw [core_flagged sys env req hm hne hg hu hf]
    exact moderatedImage_flagged_prompts env req _ _ (by rfl)
  refine ⟨main, part010_flagged_prompts, ?_⟩
  intro sys env1 req1 env2 req2 hm1 hne1 hg1 hu1 hf1 hm2 hne2 hg2 hu2 hf2
  rcases main sys env1 req1 hm1 hne1 hg1 hu1 hf1 with h1 | h1 <;>
    rcases main sys env2 req2 hm2 hne2 hg2 hu2 hf2 with h2 | h2 <;>
    simp [h1, h2]

/-- Witness for C10: a concrete flagged request to each moderated variant. -/
theorem C10_flagged_constant_prompt_witness :
    (reqW.method = msgPOST ∧ jsClean 500 reqW.message ≠ [] ∧
     envFlaggedW.globalCount < 200 ∧ envFlaggedW.userCount < 500 ∧
     flagOf envFlaggedW.modUser = true) ∧
    (imagePromptsOf (moderatedCore sysAI2 envFlaggedW reqW).2 = [SAFE_AI2] ∨
     imagePromptsOf (moderatedCore sysAI2 envFlaggedW reqW).2 = [SAFE_AI2, SAFE_AI2]) ∧
    (imagePromptsOf (part010run envFlaggedW reqW).2 = [SAFE_010] ∨
     imagePromptsOf (part010run envFlaggedW reqW).2 = [SAFE_010, SAFE_010]) ∧
    (imagePromptsOf (moderatedCore sys006 envFlaggedW reqW).2).head? =
      (imagePromptsOf (moderatedCore sys006 envFlaggedW reqW).2).head? :=
  ⟨⟨rfl, by decide, by decide, by decide, by decide⟩,
   C10_flagged_constant_prompt.1 sysAI2 envFlaggedW reqW rfl (by decide) (by decide)
     (by decide) (by decide),
   C10_flagged_constant_prompt.2.1 envFlaggedW reqW rfl (by decide) (by decide)
     (by decide) (by decide),
   C10_flagged_constant_prompt.2.2 sys006 envFlaggedW reqW envFlaggedW reqW rfl
     (by decide) (by decide) (by decide) (by decide) rfl (by decide) (by decide)
     (by decide) (by decide)⟩

/-- A safety-classified failure of the primary image call in the moderated
image stage: exactly one retry with the constant safe prompt; if the retry
also fails, the stage answers 400 "Blocked by safety filter" with no upload
and no insert. -/
theorem moderatedImage_retry (env : Env) (req : Req) (clean fp1 : JsStr)
    (tr : List Eff) (e : ImgErr)
    (htr : imagePromptsOf tr = []) (htu : uploadsOf tr = []) (hti : insertsOf tr = [])
    (h1 : env.img1 = Except.error e) (hcl : looksLikeModerationBlock e = true) :
    (∃ p, imagePromptsOf (moderatedImage env req clean fp1 tr).2 = [p, SAFE_AI2]) ∧
    (∀ e2, env.img2 = Except.error e2 →
      (moderatedImage env req clean fp1 tr).1 = respErr 400 errBlocked ∧
      uploadsOf (moderatedImage env req clean fp1 tr).2 = [] ∧
      insertsOf (moderatedImage env req clean fp1 tr).2 = []) := by
  simp only [imagePromptsOf, uploadsOf, insertsOf] at htr htu hti
  cases h2 : env.img2 with
  | ok o2 =>
    constructor
    · refine ⟨if flagOf env.modPrompt = true then SAFE_AI2 else fp1, ?_⟩
      simp [moderatedImage, moderatedFinish, h1, hcl, h2, imagePromptsOf,
        List.filterMap_append, htr]
    · intro e2 h2'
      simp_all
  | error e2 =>
    constructor
    · refine ⟨if flagOf env.modPrompt = true then SAFE_AI2 else fp1, ?_⟩
      simp [moderatedImage, moderatedFinish, h1, hcl, h2, imagePromptsOf,
        List.filterMap_append, htr]
    · intro e2' h2'
      refine ⟨?_, ?_, ?_⟩ <;>
        simp [moderatedImage, moderatedFinish, h1, hcl, h2, imagePromptsOf,
          uploadsOf, insertsOf, List.filterMap_append, htu, hti]

/-- C2: a safety-classified failure of the image call triggers exactly one
retry with the theme's hardcoded safe prompt, and when the retry also fails
the response is 400 "Blocked by safety filter 🌸" with no upload and no
insert — in the `submitAI` safety variant and in `part_002`. -/
theorem C2_safety_retry :
    (∀ (env : Env) (req : Req) (e : ImgErr), req.method = msgPOST →
      jsClean 500 req.message ≠ [] → env.globalCount < 200 → env.userCount < 500 →
      (flagOf env.modUser = true ∨ ∃ c, env.chat = Except.ok c) →
      env.img1 = Except.error e → looksLikeModerationBlock e = true →
      (∃ p, imagePromptsOf (submitAI2run env req).2 = [p, SAFE_AI2]) ∧
      (∀ e2, env.img2 = Except.error e2 →
        (submitAI2run env req).1 = respErr 400 errBlocked ∧
        uploadsOf (submitAI2run env req).2 = [] ∧
        insertsOf (submitAI2run env req).2 = [])) ∧
    (∀ (env : Env) (req : Req) (e : ImgErr) (c : JsStr), req.method = msgPOST →
      jsClean 500 req.message ≠ [] → env.globalCount < 200 → env.userCount < 500 →
      env.chat = Except.ok c →
      env.img1 = Except.error e → looksSafety002 e = true →
      imagePromptsOf (part002run env req).2 = [part002Sanitize c, SAFE_002] ∧
      (∀ e2, env.img2 = Except.error e2 →
        (part002run env req).1 = respErr 400 errBlocked ∧
        uploadsOf (part002run env req).2 = [] ∧
        insertsOf (part002run env req).2 = [])) := by
  constructor
  · intro env req e hm hne hg hu hreach h1 hcl
    by_cases hf : flagOf env.modUser = true
    · have hrw := core_flagged sysAI2 env req hm hne hg hu hf
      simp only [submitAI2run, hrw]
      exact moderatedImage_retry env req _ _ _ e rfl rfl rfl h1 hcl
    · have hf' : flagOf env.modUser = false := by
        revert hf; cases flagOf env.modUser <;> simp
      rcases hreach with hfl | ⟨c, hc⟩
      · exact absurd hfl hf
      · have hrw := core_chat sysAI2 env req c hm hne hg hu hf' hc
        simp only [submitAI2run, hrw]
        exact moderatedImage_retry env req _ _ _ e rfl rfl rfl h1 hcl
  · intro env req e c hm hne hg hu hc h1 hcl
    have hg' : ¬ 200 ≤ env.globalCount := by omega
    have hu' : ¬ 500 ≤ env.userCount := by omega
    cases h2 : env.img2 with
    | ok o2 =>
      constructor
      · simp [part002run, hm, post_ne_options, hne, hg', hu', hc, h1, hcl, h2,
          imagePromptsOf, List.filterMap_append]
      · intro e2 h2'
        simp_all
    | error e2 =>
      constructor
      · simp [part002run, hm, post_ne_options, hne, hg', hu', hc, h1, hcl, h2,
          imagePromptsOf, List.filterMap_append]
      · intro e2' h2'
        refine ⟨?_, ?_, ?_⟩ <;>
          simp [part002run, hm, post_ne_options, hne, hg', hu', hc, h1, hcl, h2,
            imagePromptsOf, uploadsOf, insertsOf, List.filterMap_append]

/-- Witness for C2: a concrete safety-blocked run whose retry also fails. -/
theorem C2_safety_retry_witness :
    ((∃ p, imagePromptsOf (submitAI2run envBlockedW reqW).2 = [p, SAFE_AI2]) ∧
     (submitAI2run envBlockedW reqW).1 = respErr 400 errBlocked ∧
     uploadsOf (submitAI2run envBlockedW reqW).2 = [] ∧
     insertsOf (submitAI2run envBlockedW reqW).2 = []) ∧
    (imagePromptsOf (part002run envBlockedW reqW).2 =
       [part002Sanitize (strLit "a red flower"), SAFE_002] ∧
     (part002run envBlockedW reqW).1 = respErr 400 errBlocked) := by
  have hA := C2_safety_retry.1 envBlockedW reqW
    ⟨some mbCode, some 400, strLit "Rejected by the safety system"⟩
    rfl (by decide) (by decide) (by decide)
    (Or.inr ⟨strLit "a red flower", rfl⟩) rfl (by decide)
  have hB := C2_safety_retry.2 envBlockedW reqW
    ⟨some mbCode, some 400, strLit "Rejected by the safety system"⟩
    (strLit "a red flower") rfl (by decide) (by decide) (by decide) rfl rfl (by decide)
  have hA2 := hA.2 ⟨none, some 429, strLit "Rate limit exceeded"⟩ rfl
  have hB2 := hB.2 ⟨none, some 429, strLit "Rate limit exceeded"⟩ rfl
  exact ⟨⟨hA.1, hA2.1, hA2.2.1, hA2.2.2⟩, hB.1, hB2.1⟩

/-- Counterexample to C3 as stated: in `part_010` a non-safety image failure
(429 rate limit, not safety-classified under either pattern) is retried and
the request even succeeds with 200 — the handler neither responds 500 nor
refrains from retrying. -/
theorem C3_no_retry_counterexample :
    looksLikeModerationBlock ⟨none, some 429, strLit "Rate limit exceeded"⟩ = false ∧
    looksSafety002 ⟨none, some 429, strLit "Rate limit exceeded"⟩ = false ∧
    envQuotaW.img1 = Except.error ⟨none, some 429, strLit "Rate limit exceeded"⟩ ∧
    (part010run envQuotaW reqW).1.status = 200 ∧
    (imagePromptsOf (part010run envQuotaW reqW).2).length = 2 :=
  ⟨by decide, by decide, rfl, by decide, by decide⟩

/-- C3 as the code actually behaves: `part_002` responds 500 "Image
generation error" with no retry on a non-safety image failure, but
`part_010` and `part_000` retry once with their safe prompt on every image
failure, responding 500 only when the retry also fails. -/
theorem C3_nonsafety_amended :
    (∀ (env : Env) (req : Req) (e : ImgErr) (c : JsStr), req.method = msgPOST →
      jsClean 500 req.message ≠ [] → env.globalCount < 200 → env.userCount < 500 →
      env.chat = Except.ok c → env.img1 = Except.error e → looksSafety002 e = false →
      (part002run env req).1 = respErr 500 errImageGen ∧
      imagePromptsOf (part002run env req).2 = [part002Sanitize c]) ∧
    (∀ (env : Env) (req : Req) (e : ImgErr), req.method = msgPOST →
      jsClean 500 req.message ≠ [] → env.globalCount < 200 → env.userCount < 500 →
      (flagOf env.modUser = true ∨ ∃ c, env.chat = Except.ok c) →
      env.img1 = Except.error e →
      (∃ p, imagePromptsOf (part010run env req).2 = [p, SAFE_010]) ∧
      (∀ o2, env.img2 = Except.ok o2 → (part010run env req).1.status = 200) ∧
      (∀ e2, env.img2 = Except.error e2 →
        (part010run env req).1 = respErr 500 errServer)) ∧
    (∀ (env : Env) (req : Req) (e : ImgErr), req.method = msgPOST →
      jsClean 500 req.message ≠ [] → env.globalCount < 200 → env.userCount < 500 →
      env.img1 = Except.error e →
      (∃ p, imagePromptsOf (part000run env req).2 =
        [p, buildStyledPrompt SAFE_FALLBACK_DESC_000]) ∧
      (∀ o2, env.img2 = Except.ok o2 → (part000run env req).1.status = 200) ∧
      (∀ e2, env.img2 = Except.error e2 →
        (part000run env req).1 = respErr 500 errServer)) := by
  refine ⟨?_, ?_, ?_⟩
  · intro env req e c hm hne hg hu hc h1 hcl
    have hg' : ¬ 200 ≤ env.globalCount := by omega
    have hu' : ¬ 500 ≤ env.userCount := by omega
    constructor <;>
      simp [part002run, hm, post_ne_options, hne, hg', hu', hc, h1, hcl,
        imagePromptsOf, List.filterMap_append]
  · intro env req e hm hne hg hu hreach h1
    have hg' : ¬ 200 ≤ env.globalCount := by omega
    have hu' : ¬ 500 ≤ env.userCount := by omega
    by_cases hf : flagOf env.modUser = true
    · refine ⟨?_, ?_, ?_⟩
      · refine ⟨SAFE_010, ?_⟩
        cases h2 : env.img2 <;>
          simp [part010run, hm, post_ne_options, hne, hg', hu', hf, h1, h2,
            imagePromptsOf, List.filterMap_append]
      · intro o2 h2
        simp [part010run, respOk200, hm, post_ne_options, hne, hg', hu', hf, h1, h2]
      · intro e2 h2
        simp [part010run, hm, post_ne_options, hne, hg', hu', hf, h1, h2]
    · have hf' : flagOf env.modUser = false := by
        revert hf; cases flagOf env.modUser <;> simp
      rcases hreach with hfl | ⟨c, hc⟩
      · exact absurd hfl hf
      · refine ⟨?_, ?_, ?_⟩
        · refine ⟨if flagOf env.modPrompt = true then SAFE_010
            else if jsTrim c = [] then SAFE_010 else jsTrim c, ?_⟩
          cases h2 : env.img2 <;>
            simp [part010run, hm, post_ne_options, hne, hg', hu', hf', hc, h1, h2,
              imagePromptsOf, List.filterMap_append]
        · intro o2 h2
          simp [part010run, respOk200, hm, post_ne_options, hne, hg', hu', hf', hc, h1,
            h2]
        · intro e2 h2
          simp [part010run, hm, post_ne_options, hne, hg', hu', hf', hc, h1, h2]
  · intro env req e hm hne hg hu h1
    have hg' : ¬ 200 ≤ env.globalCount := by omega
    have hu' : ¬ 500 ≤ env.userCount := by omega
    refine ⟨?_, ?_, ?_⟩
    · refine ⟨buildStyledPrompt (part000FlowerLine env), ?_⟩
      cases h2 : env.img2 <;> cases hc : env.chat <;>
        simp [part000run, part000FlowerLine, hm, post_ne_options, hne, hg', hu',
          hc, h1, h2, imagePromptsOf, List.filterMap_append]
    · intro o2 h2
      cases hc : env.chat <;>
        simp [part000run, respOk200, hm, post_ne_options, hne, hg', hu', hc, h1, h2]
    · intro e2 h2
      cases hc : env.chat <;>
        simp [part000run, hm, post_ne_options, hne, hg', hu', hc, h1, h2]

/-- Witness for C3 (amended) at a concrete non-safety failure. -/
theorem C3_nonsafety_amended_witness :
    ((part002run envQuotaW reqW).1 = respErr 500 errImageGen ∧
     imagePromptsOf (part002run envQuotaW reqW).2 =
       [part002Sanitize (strLit "a red flower")]) ∧
    ((∃ p, imagePromptsOf (part010run envQuotaW reqW).2 = [p, SAFE_010]) ∧
     (part010run envQuotaW reqW).1.status = 200) ∧
    ((∃ p, imagePromptsOf (part000run envQuotaW reqW).2 =
       [p, buildStyledPrompt SAFE_FALLBACK_DESC_000]) ∧
     (part000run envQuotaW reqW).1.status = 200) := by
  have hA := C3_nonsafety_amended.1 envQuotaW reqW
    ⟨none, some 429, strLit "Rate limit exceeded"⟩ (strLit "a red flower")
    rfl (by decide) (by decide) (by decide) rfl rfl (by decide)
  have hB := C3_nonsafety_amended.2.1 envQuotaW reqW
    ⟨none, some 429, strLit "Rate limit exceeded"⟩
    rfl (by decide) (by decide) (by decide)
    (Or.inr ⟨strLit "a red flower", rfl⟩) rfl
  have hC := C3_nonsafety_amended.2.2 envQuotaW reqW
    ⟨none, some 429, strLit "Rate limit exceeded"⟩
    rfl (by decide) (by decide) (by decide) rfl
  exact ⟨hA, ⟨hB.1, hB.2.1 ⟨[11, 22, 33], none⟩ rfl⟩,
         ⟨hC.1, hC.2.1 ⟨[11, 22, 33], none⟩ rfl⟩⟩

/-- Counterexample to C4 as stated: in `submitFish` a failing
prompt-composition call aborts the request with a 500 — the pipeline does
not substitute a fallback and continue. -/
theorem C4_composition_counterexample :
    envChatFailW.chat = Except.error () ∧
    (fishRun envChatFailW reqW).1 = respErr 500 errServer ∧
    insertsOf (fishRun envChatFailW reqW).2 = [] :=
  ⟨rfl, by decide, by decide⟩

/-- C4 as the code actually behaves: `part_000` absorbs a composition
failure into its fallback description and still succeeds, while
`submitFish` and `submitBird` propagate the failure as a 500 with nothing
persisted. -/
theorem C4_composition_amended :
    (∀ (env : Env) (req : Req), req.method = msgPOST →
      jsClean 500 req.message ≠ [] → env.globalCount < 200 → env.userCount < 500 →
      env.chat = Except.error () →
      ∀ o : ImgOk, env.img1 = Except.ok o →
      (part000run env req).1 =
        respOk200
          (env.urlBase ++ bloomFilename env.now (hashToSeed (jsClean 500 req.message)))
          (buildStyledPrompt SAFE_FALLBACK_DESC_000) ∧
      (insertsOf (part000run env req).2).length = 1) ∧
    (∀ (env : Env) (req : Req), req.method = msgPOST →
      jsClean 500 req.message ≠ [] → env.chat = Except.error () →
      (fishRun env req).1 = respErr 500 errServer ∧
      insertsOf (fishRun env req).2 = [] ∧ uploadsOf (fishRun env req).2 = []) ∧
    (∀ (env : Env) (req : Req), req.method = msgPOST →
      jsClean 500 req.message ≠ [] → env.globalCount < 200 → env.userCount < 500 →
      env.chat = Except.error () →
      (birdRun env req).1 = respErr 500 errServer ∧
      insertsOf (birdRun env req).2 = [] ∧ uploadsOf (birdRun env req).2 = []) := by
  refine ⟨?_, ?_, ?_⟩
  · intro env req hm hne hg hu hc o h1
    have hg' : ¬ 200 ≤ env.globalCount := by omega
    have hu' : ¬ 500 ≤ env.userCount := by omega
    constructor <;>
      simp [part000run, hm, post_ne_options, hne, hg', hu', hc, h1,
        insertsOf, List.filterMap_append]
  · intro env req hm hne hc
    refine ⟨?_, ?_, ?_⟩ <;>
      simp [fishRun, hm, post_ne_options, hne, hc, insertsOf, uploadsOf]
  · intro env req hm hne hg hu hc
    have hg' : ¬ 200 ≤ env.globalCount := by omega
    have hu' : ¬ 500 ≤ env.userCount := by omega
    refine ⟨?_, ?_, ?_⟩ <;>
      simp [birdRun, hm, post_ne_options, hne, hg', hu', hc, insertsOf, uploadsOf]

/-- Witness for C4 (amended): with the chat service down, `part_000` still
answers 200 from the fallback description while `submitFish` and
`submitBird` answer 500. -/
theorem C4_composition_amended_witness :
    ((part000run envChatFailW reqW).1 =
       respOk200
         (envChatFailW.urlBase ++
           bloomFilename envChatFailW.now (hashToSeed (jsClean 500 reqW.message)))
         (buildStyledPrompt SAFE_FALLBACK_DESC_000) ∧
     (insertsOf (part000run envChatFailW reqW).2).length = 1) ∧
    ((fishRun envChatFailW reqW).1 = respErr 500 errServer) ∧
    ((birdRun envChatFailW reqW).1 = respErr 500 errServer) :=
  ⟨C4_composition_amended.1 envChatFailW reqW rfl (by decide) (by decide) (by decide)
     rfl ⟨[137, 80, 78, 71], none⟩ rfl,
   (C4_composition_amended.2.1 envChatFailW reqW rfl (by decide) rfl).1,
   (C4_composition_amended.2.2 envChatFailW reqW rfl (by decide) (by decide) (by decide)
     rfl).1⟩

/-- Counterexample to C8 as stated: in the first `part_003` variant a CMS
push that returns a non-ok HTTP response turns the whole request into a 500
"Webflow CMS insert failed", even though the Record was already inserted and
the CMS step was reached. -/
theorem C8_cms_counterexample :
    envCmsFailW.cms = Except.ok false ∧
    (part003v1run envCmsFailW reqW).1 = respErr 500 errWebflowFailed ∧
    (insertsOf (part003v1run envCmsFailW reqW).2).length = 1 ∧
    Eff.cmsCall (jsClean 500 reqW.message) ∈ (part003v1run envCmsFailW reqW).2 :=
  ⟨rfl, by decide, by decide, by decide⟩

/-- C8 as the code actually behaves: `part_005` responds 200 whatever the
CMS outcome (its push is fully guarded), `part_004` responds 200 when the
CMS returns a non-ok response (only logged), but the first `part_003`
variant responds 500 on a non-ok CMS response although the Record was
already persisted. -/
theorem C8_cms_amended :
    (∀ (env : Env) (req : Req) (c : JsStr) (o : ImgOk), req.method = msgPOST →
      jsClean 500 req.message ≠ [] → env.countErr = false → env.globalCount < 200 →
      env.chat = Except.ok c → env.img1 = Except.ok o →
      env.uploadErr = false → env.insertErr = false →
      (part005run env req).1 =
        respOk200
          (env.urlBase ++ bloomFilename env.now (hashToSeed (jsClean 500 req.message)))
          (jsTrim c) ∧
      (insertsOf (part005run env req).2).length = 1 ∧
      Eff.cmsCall (jsClean 500 req.message) ∈ (part005run env req).2) ∧
    (∀ (env : Env) (req : Req) (o : ImgOk), req.method = msgPOST →
      jsClean 500 req.message ≠ [] → env.globalCount < 200 → env.userCount < 50 →
      env.img1 = Except.ok o → env.cms = Except.ok false →
      (part004run env req).1 =
        respOk200
          (env.urlBase ++
            bloomFilename env.now (hashToSeed (sanitizeInput (jsClean 500 req.message))))
          (dalle004pre ++ sanitizeInput (jsClean 500 req.message) ++ dalle004suf) ∧
      (insertsOf (part004run env req).2).length = 1) ∧
    (∀ (env : Env) (req : Req) (c : JsStr) (o : ImgOk), req.method = msgPOST →
      jsClean 500 req.message ≠ [] → env.globalCount < 200 → env.userCount < 100 →
      env.chat = Except.ok c → env.img1 = Except.ok o → env.cms = Except.ok false →
      (part003v1run env req).1 = respErr 500 errWebflowFailed ∧
      (insertsOf (part003v1run env req).2).length = 1) := by
  refine ⟨?_, ?_, ?_⟩
  · intro env req c o hm hne hce hg hc h1 hup hins
    have hg' : ¬ 200 ≤ env.globalCount := by omega
    refine ⟨?_, ?_, ?_⟩ <;>
      simp [part005run, hm, post_ne_options, hne, hce, hg', hc, h1, hup, hins,
        insertsOf, List.filterMap_append]
  · intro env req o hm hne hg hu h1 hcms
    have hg' : ¬ 200 ≤ env.globalCount := by omega
    have hu' : ¬ 50 ≤ env.userCount := by omega
    constructor <;>
      simp [part004run, hm, post_ne_options, hne, hg', hu', h1, hcms,
        insertsOf, List.filterMap_append]
  · intro env req c o hm hne hg hu hc h1 hcms
    have hg' : ¬ 200 ≤ env.globalCount := by omega
    have hu' : ¬ 100 ≤ env.userCount := by omega
    constructor <;>
      simp [part003v1run, hm, post_ne_options, hne, hg', hu', hc, h1, hcms,
        insertsOf, List.filterMap_append]

/-- Witness for C8 (amended) at a concrete failing CMS push. -/
theorem C8_cms_amended_witness :
    ((part005run envCmsFailW reqW).1 =
       respOk200
         (envCmsFailW.urlBase ++
           bloomFilename envCmsFailW.now (hashToSeed (jsClean 500 reqW.message)))
         (jsTrim (strLit "a red flower")) ∧
     (insertsOf (part005run envCmsFailW reqW).2).length = 1) ∧
    ((part004run envCmsFailW reqW).1 =
       respOk200
         (envCmsFailW.urlBase ++
           bloomFilename envCmsFailW.now
             (hashToSeed (sanitizeInput (jsClean 500 reqW.message))))
         (dalle004pre ++ sanitizeInput (jsClean 500 reqW.message) ++ dalle004suf)) ∧
    ((part003v1run envCmsFailW reqW).1 = respErr 500 errWebflowFailed) := by
  have hA := C8_cms_amended.1 envCmsFailW reqW (strLit "a red flower")
    ⟨[137, 80, 78, 71], none⟩ rfl (by decide) rfl (by decide) rfl rfl rfl rfl
  have hB := C8_cms_amended.2.1 envCmsFailW reqW ⟨[137, 80, 78, 71], none⟩
    rfl (by decide) (by decide) (by decide) rfl rfl
  have hC := C8_cms_amended.2.2 envCmsFailW reqW (strLit "a red flower")
    ⟨[137, 80, 78, 71], none⟩ rfl (by decide) (by decide) (by decide) rfl rfl rfl
  exact ⟨⟨hA.1, hA.2.1⟩, hB.1, hC.1⟩

/-- A 200 from the moderated image stage satisfies the full success report:
matching upload, matching Record, and a response prompt equal to the prompt
of the image call whose outcome produced the uploaded bytes. -/
theorem moderatedImage_success (env : Env) (req : Req) (clean fp1 : JsStr)
    (tr : List Eff)
    (htr : imagePromptsOf tr = []) (htu : uploadsOf tr = []) (hti : insertsOf tr = [])
    (h200 : (moderatedImage env req clean fp1 tr).1.status = 200) :
    successOf env req clean (moderatedImage env req clean fp1 tr) := by
  simp only [imagePromptsOf, uploadsOf, insertsOf] at htr htu hti
  simp only [successOf]
  cases h1 : env.img1 with
  | ok o =>
    obtain ⟨b, rv⟩ := o
    refine ⟨if flagOf env.modPrompt = true then SAFE_AI2 else fp1, b,
      ?_, ?_, ?_, ?_, rv, ?_⟩ <;>
      simp [moderatedImage, moderatedFinish, h1, imagePromptsOf, uploadsOf,
        insertsOf, imgOutcome, List.filterMap_append, htr, htu, hti]
  | error e =>
    cases hcl : looksLikeModerationBlock e with
    | false =>
      exfalso
      simp [moderatedImage, h1, hcl, respErr] at h200
    | true =>
      cases h2 : env.img2 with
      | error e2 =>
        exfalso
        simp [moderatedImage, h1, hcl, h2, respErr] at h200
      | ok o2 =>
        obtain ⟨b, rv⟩ := o2
        refine ⟨SAFE_AI2, b, ?_, ?_, ?_, ?_, rv, ?_⟩ <;>
          simp [moderatedImage, moderatedFinish, h1, hcl, h2, imagePromptsOf,
            uploadsOf, insertsOf, imgOutcome, List.filterMap_append, htr, htu, hti]

/-- C1 amended: on any 200, the `submitAI` safety variant returns `ok`, the
public URL of the single uploaded object, exactly one Record matching the
normalized message, its seed and that URL, and the prompt actually used by
the image call that produced the stored bytes; `part_002` and `part_000`
guarantee the same for the upload and the Record, but always report the
composed prompt, which differs from the prompt actually used when the safe
retry produced the image. -/
theorem C1_full_success :
    (∀ (env : Env) (req : Req), req.method = msgPOST →
      (submitAI2run env req).1.status = 200 →
      successOf env req (jsClean 500 req.message) (submitAI2run env req)) ∧
    (∀ (env : Env) (req : Req) (c : JsStr), req.method = msgPOST →
      env.chat = Except.ok c → (part002run env req).1.status = 200 →
      part002Success env req (jsClean 500 req.message) (part002Sanitize c)
        (part002run env req)) ∧
    (∀ (env : Env) (req : Req), req.method = msgPOST →
      (part000run env req).1.status = 200 →
      part000Success env req (jsClean 500 req.message) (part000run env req)) := by
  refine ⟨?_, ?_, ?_⟩
  · intro env req hm h200
    simp only [submitAI2run] at h200 ⊢
    by_cases hne : jsClean 500 req.message = []
    · exfalso
      simp [moderatedCore, hm, post_ne_options, hne, respErr] at h200
    by_cases hg : 200 ≤ env.globalCount
    · exfalso
      simp [moderatedCore, hm, post_ne_options, hne, hg, respErr] at h200
    by_cases hu : 500 ≤ env.userCount
    · exfalso
      simp [moderatedCore, hm, post_ne_options, hne, hg, hu, respErr] at h200
    by_cases hf : flagOf env.modUser = true
    · have hrw := core_flagged sysAI2 env req hm hne (by omega) (by omega) hf
      rw [hrw] at h200 ⊢
      exact moderatedImage_success env req _ _ _ rfl rfl rfl h200
    · have hf' : flagOf env.modUser = false := by
        revert hf; cases flagOf env.modUser <;> simp
      cases hc : env.chat with
      | error u =>
        exfalso
        simp [moderatedCore, hm, post_ne_options, hne, hg, hu, hf', hc, respErr]
          at h200
      | ok c =>
        have hrw := core_chat sysAI2 env req c hm hne (by omega) (by omega) hf' hc
        rw [hrw] at h200 ⊢
        exact moderatedImage_success env req _ _ _ rfl rfl rfl h200
  · intro env req c hm hc h200
    simp only [part002Success]
    by_cases hne : jsClean 500 req.message = []
    · exfalso
      simp [part002run, hm, post_ne_options, hne, respErr] at h200
    by_cases hg : 200 ≤ env.globalCount
    · exfalso
      simp [part002run, hm, post_ne_options, hne, hg, respErr] at h200
    by_cases hu : 500 ≤ env.userCount
    · exfalso
      simp [part002run, hm, post_ne_options, hne, hg, hu, respErr] at h200
    cases h1 : env.img1 with
    | ok o =>
      obtain ⟨b, rv⟩ := o
      refine ⟨b, ?_, ?_, ?_, Or.inl ⟨?_, rv, ?_⟩⟩ <;>
        simp [part002run, hm, post_ne_options, hne, hg, hu, hc, h1,
          imagePromptsOf, uploadsOf, insertsOf, List.filterMap_append]
    | error e =>
      cases hcl : looksSafety002 e with
      | false =>
        exfalso
        simp [part002run, hm, post_ne_options, hne, hg, hu, hc, h1, hcl, respErr]
          at h200
      | true =>
        cases h2 : env.img2 with
        | error e2 =>
          exfalso
          simp [part002run, hm, post_ne_options, hne, hg, hu, hc, h1, hcl, h2,
            respErr] at h200
        | ok o2 =>
          obtain ⟨b, rv⟩ := o2
          refine ⟨b, ?_, ?_, ?_, Or.inr ⟨?_, rv, ?_⟩⟩ <;>
            simp [part002run, hm, post_ne_options, hne, hg, hu, hc, h1, hcl, h2,
              imagePromptsOf, uploadsOf, insertsOf, List.filterMap_append]
  · intro env req hm h200
    simp only [part000Success]
    by_cases hne : jsClean 500 req.message = []
    · exfalso
      simp [part000run, hm, post_ne_options, hne, respErr] at h200
    by_cases hg : 200 ≤ env.globalCount
    · exfalso
      simp [part000run, hm, post_ne_options, hne, hg, respErr] at h200
    by_cases hu : 500 ≤ env.userCount
    · exfalso
      simp [part000run, hm, post_ne_options, hne, hg, hu, respErr] at h200
    cases h1 : env.img1 with
    | ok o =>
      obtain ⟨b, rv⟩ := o
      refine ⟨b, ?_, ?_, ?_, Or.inl ⟨?_, rv, ?_⟩⟩ <;>
        cases hc : env.chat <;>
        simp [part000run, part000FlowerLine, hm, post_ne_options, hne, hg, hu,
          hc, h1, imagePromptsOf, uploadsOf, insertsOf, List.filterMap_append]
    | error e =>
      cases h2 : env.img2 with
      | error e2 =>
        exfalso
        cases hc : env.chat <;>
          simp [part000run, hm, post_ne_options, hne, hg, hu, hc, h1, h2,
            respErr] at h200
      | ok o2 =>
        obtain ⟨b, rv⟩ := o2
        refine ⟨b, ?_, ?_, ?_, Or.inr ⟨?_, rv, ?_⟩⟩ <;>
          cases hc : env.chat <;>
          simp [part000run, part000FlowerLine, hm, post_ne_options, hne, hg, hu,
            hc, h1, h2, imagePromptsOf, uploadsOf, insertsOf,
            List.filterMap_append]

/-- Counterexample to C1 as stated: a `part_002` run whose safety retry
produced the stored image answers 200 but reports the composed prompt,
which is not the prompt actually used by the image call that produced the
uploaded bytes (the safe fallback prompt generated bytes [11, 22, 33]). -/
theorem C1_prompt_counterexample :
    (part002run envRetryOkW reqW).1.status = 200 ∧
    (part002run envRetryOkW reqW).1.prompt =
      some (part002Sanitize (strLit "a red flower")) ∧
    (imagePromptsOf (part002run envRetryOkW reqW).2).getLast? = some SAFE_002 ∧
    uploadsOf (part002run envRetryOkW reqW).2 =
      [(bloomFilename 1730000000000 (hashToSeed (jsClean 500 reqW.message)),
        [11, 22, 33])] ∧
    part002Sanitize (strLit "a red flower") ≠ SAFE_002 :=
  ⟨by decide, by decide, by decide, by decide, by decide⟩

/-- Witness for C1 (amended) on a fully successful concrete run. -/
theorem C1_full_success_witness :
    (reqW.method = msgPOST ∧ (submitAI2run envOkW reqW).1.status = 200 ∧
     successOf envOkW reqW (jsClean 500 reqW.message) (submitAI2run envOkW reqW)) ∧
    (envOkW.chat = Except.ok (strLit "a red flower") ∧
     (part002run envOkW reqW).1.status = 200 ∧
     part002Success envOkW reqW (jsClean 500 reqW.message)
       (part002Sanitize (strLit "a red flower")) (part002run envOkW reqW)) ∧
    ((part000run envOkW reqW).1.status = 200 ∧
     part000Success envOkW reqW (jsClean 500 reqW.message) (part000run envOkW reqW)) :=
  ⟨⟨rfl, by decide, C1_full_success.1 envOkW reqW rfl (by decide)⟩,
   ⟨rfl, by decide,
    C1_full_success.2.1 envOkW reqW (strLit "a red flower") rfl rfl (by decide)⟩,
   ⟨by decide, C1_full_success.2.2 envOkW reqW rfl (by decide)⟩⟩
